import Mathlib

/-!
Verification development for the docktail reconciler.

The definitions below are a shallow embedding of the Go sources:
`tailscale/client.go` (ReconcileServices, syncServiceDefinitions,
SyncServiceDefinition, CleanupAllServices), `tailscale/service.go`
(GetCurrentServices, addService, clearServiceOnly, removeService),
`tailscale/utils.go` (buildDestination, isManagedService),
`tailscale/funnel.go` (reconcileFunnels, addFunnel, removeFunnel) and
`docker/client.go` (resolveProtocols, resolveDestPort, getContainerIP,
parseContainer, parseIndexedPorts, GetEnabledContainers).

Go maps are embedded as association lists (`List (String × α)`).  Insertion
(`m[k] = v`) is modelled by `mapInsert`, which keeps keys unique; lookup by
`mapLookup`.  Go's `range` over a map enumerates entries in an unspecified
order, so every loop over a map is parameterised by the enumeration order,
constrained in the theorems to a permutation of the map's entries (or the
association list's own order is used as one admissible enumeration).
Logging is dropped except where a claim is about it (duplicate-index and
duplicate-funnel-port diagnostics, which are returned as data).  Context
plumbing, subprocess execution and HTTP transport are replaced by explicit
outcome oracles; the command sequences the code would execute are returned
as data.
-/

namespace Docktail

/-- Association list lookup, modelling Go `v, ok := m[k]`. -/
def mapLookup {α : Type} (m : List (String × α)) (k : String) : Option α :=
  (m.find? (fun kv => kv.1 == k)).map (fun kv => kv.2)

/-- Association list insert, modelling Go `m[k] = v` (overwrite). -/
def mapInsert {α : Type} (m : List (String × α)) (k : String) (v : α) :
    List (String × α) :=
  (m.filter (fun kv => kv.1 != k)) ++ [(k, v)]

/-- Keys of an association list. -/
def mapKeys {α : Type} (m : List (String × α)) : List String :=
  m.map (fun kv => kv.1)

/-- Go `types.ContainerService`: a parsed container with its service configuration. -/
structure ContainerService where
  containerID : String := ""
  containerName : String := ""
  serviceName : String := ""
  /-- Tailscale-side listen port (Go field `Port`). -/
  port : String := ""
  /-- Destination port to proxy to (Go field `TargetPort`). -/
  targetPort : String := ""
  /-- Listen protocol (Go field `ServiceProtocol`). -/
  serviceProtocol : String := ""
  /-- Backend protocol (Go field `Protocol`). -/
  protocol : String := ""
  tags : List String := []
  ipAddress : String := ""
  funnelEnabled : Bool := false
  funnelPort : String := ""
  funnelTargetPort : String := ""
  funnelFunnelPort : String := ""
  funnelProtocol : String := ""
deriving Repr, DecidableEq

/-- Go `tailscale.ServiceEndpoint`: one observed endpoint from the daemon status. -/
structure ServiceEndpoint where
  serviceName : String
  port : String
  protocol : String
  destination : String
deriving Repr, DecidableEq

/-- Go `tailscale.TailscaleTCPConfig`. -/
structure TailscaleTCPConfig where
  http : Bool
  https : Bool
deriving Repr, DecidableEq

/-- Go `tailscale.TailscaleHandler`. -/
structure TailscaleHandler where
  proxy : String
deriving Repr, DecidableEq

/-- Go `tailscale.TailscaleWebConfig`. -/
structure TailscaleWebConfig where
  handlers : List (String × TailscaleHandler)
deriving Repr, DecidableEq

/-- Go `tailscale.TailscaleService`. -/
structure TailscaleService where
  tcp : List (String × TailscaleTCPConfig)
  web : List (String × TailscaleWebConfig)
deriving Repr, DecidableEq

/-- Go `tailscale.TailscaleStatus`: shape of `tailscale serve status --json`. -/
structure TailscaleStatus where
  services : List (String × TailscaleService)
deriving Repr, DecidableEq

/-- Go `strings.HasPrefix s p`. -/
def goHasPfx (s p : String) : Bool :=
  p.data.isPrefixOf s.data

/-- Go `strings.HasSuffix s p`. -/
def goHasSfx (s p : String) : Bool :=
  p.data.isSuffixOf s.data

/-- From `utils.go` `isManagedService`: ids starting with `svc:` are managed. -/
def isManagedService (serviceName : String) : Bool :=
  goHasPfx serviceName "svc:"

/-- From `utils.go` `buildDestination`: `<backend protocol>://<ip>:<target port>`. -/
def buildDestination (svc : ContainerService) : String :=
  svc.protocol ++ "://" ++ svc.ipAddress ++ ":" ++ svc.targetPort

/-- Go `strings.Contains s sub`. -/
def goContains (s sub : String) : Bool :=
  (List.range (s.data.length + 1)).any (fun i => sub.data.isPrefixOf (s.data.drop i))

/-- Inner loop of `GetCurrentServices`: first handler with a non-empty
`Proxy` under a web config (`break` after the first hit, empty otherwise). -/
def firstProxy (handlers : List (String × TailscaleHandler)) : String :=
  match handlers.find? (fun h => h.2.proxy != "") with
  | some h => h.2.proxy
  | none => ""

/-- The `GetCurrentServices` destination extraction: the first web key containing
`":" ++ port`, then the first non-empty proxy among its handlers. -/
def webDestination (web : List (String × TailscaleWebConfig)) (port : String) :
    String :=
  match web.find? (fun kv => goContains kv.1 (":" ++ port)) with
  | some kv => firstProxy kv.2.handlers
  | none => ""

/-- The `GetCurrentServices` protocol extraction from the TCP flags:
HTTPS flag wins, then HTTP, else `tcp`. -/
def statusProtocol (t : TailscaleTCPConfig) : String :=
  if t.https then "https" else if t.http then "http" else "tcp"

/-- One service's entries produced by `GetCurrentServices`:
key `<serviceName>:<port>` per TCP port. -/
def serviceEndpoints (serviceName : String) (cfg : TailscaleService) :
    List (String × ServiceEndpoint) :=
  cfg.tcp.map (fun pt =>
    (serviceName ++ ":" ++ pt.1,
     { serviceName := serviceName
       port := pt.1
       protocol := statusProtocol pt.2
       destination := webDestination cfg.web pt.1 }))

/-- From `service.go` `GetCurrentServices` (parsing core): services whose id lacks
the `svc:` marker are skipped; each managed service contributes one entry per
TCP port. -/
def getCurrentServices (st : TailscaleStatus) : List (String × ServiceEndpoint) :=
  st.services.foldl
    (fun acc sv =>
      if isManagedService sv.1 then
        (serviceEndpoints sv.1 sv.2).foldl (fun acc2 kv => mapInsert acc2 kv.1 kv.2) acc
      else acc)
    []

/-- The `ReconcileServices` desired-side key: `fmt.Sprintf("svc:%s:%s", name, port)`. -/
def desiredKey (svc : ContainerService) : String :=
  "svc:" ++ svc.serviceName ++ ":" ++ svc.port

/-- The `ReconcileServices` desired map construction. -/
def buildDesiredMap (ds : List ContainerService) : List (String × ContainerService) :=
  ds.foldl (fun m svc => mapInsert m (desiredKey svc) svc) []

/-- The `ReconcileServices` update test: configuration changed iff the observed
destination differs from `buildDestination` or the observed protocol differs
from the desired listen protocol. -/
def needsUpdate (cur : ServiceEndpoint) (d : ContainerService) : Bool :=
  cur.destination != buildDestination d || cur.protocol != d.serviceProtocol

/-- The `ReconcileServices` `toAdd`: desired entries that are missing from the
observed map or whose configuration changed. -/
def computeToAdd (dm : List (String × ContainerService))
    (cm : List (String × ServiceEndpoint)) : List (String × ContainerService) :=
  dm.filter (fun kv =>
    match mapLookup cm kv.1 with
    | none => true
    | some cur => needsUpdate cur kv.2)

/-- The `ReconcileServices` `toRemove`: observed entries whose key is not desired. -/
def computeToRemove (dm : List (String × ContainerService))
    (cm : List (String × ServiceEndpoint)) : List (String × ServiceEndpoint) :=
  cm.filter (fun kv => (mapLookup dm kv.1).isNone)

/-- CLI commands the reconciler can issue against the VPN daemon. -/
inductive TsCmd where
  /-- Command `tailscale serve drain <id>` -/
  | serveDrain (serviceId : String)
  /-- Command `tailscale serve clear <id>` -/
  | serveClear (serviceId : String)
  /-- Command `tailscale serve --service=<id> <flag>=<port> <dest>` -/
  | serveAdd (serviceId flag port dest : String)
  /-- Command `tailscale funnel --bg <flag>=<publicPort> <dest>` -/
  | funnelAdd (flag publicPort dest : String)
  /-- Command `tailscale funnel reset` -/
  | funnelReset
deriving Repr, DecidableEq

/-- Service id a command is issued against (funnel commands target no id). -/
def cmdServiceId : TsCmd → Option String
  | .serveDrain id => some id
  | .serveClear id => some id
  | .serveAdd id _ _ _ => some id
  | .funnelAdd _ _ _ => none
  | .funnelReset => none

/-- A command belonging to the withdraw step (drain-then-clear). -/
def isWithdrawCmd : TsCmd → Bool
  | .serveDrain _ => true
  | .serveClear _ => true
  | _ => false

/-- A command the add/update step can issue (serve, or the conflict-path
clear-without-drain followed by the retry). -/
def isAddPhaseCmd : TsCmd → Bool
  | .serveAdd _ _ _ _ => true
  | .serveClear _ => true
  | _ => false

/-- From `service.go` `removeService`: refuses ids without the managed marker
(no command runs); otherwise drain then clear, both always attempted. -/
def removeServiceCmds (serviceName : String) : List TsCmd :=
  if isManagedService serviceName then
    [.serveDrain serviceName, .serveClear serviceName]
  else []

/-- From `service.go` the `addService` protocol-to-flag mapping; `none` is the
`unsupported service protocol` error (no command runs). -/
def protocolFlag (serviceProtocol : String) : Option String :=
  if serviceProtocol == "http" then some "--http"
  else if serviceProtocol == "https" then some "--https"
  else if serviceProtocol == "tcp" || serviceProtocol == "tls-terminated-tcp" then
    some "--tcp"
  else none

/-- From `service.go` the `addService` command trace: the serve invocation; on a
config-conflict error, clear without drain and retry exactly once. -/
def addServiceCmds (svc : ContainerService) (conflict : Bool) : List TsCmd :=
  match protocolFlag svc.serviceProtocol with
  | none => []
  | some flag =>
    let id := "svc:" ++ svc.serviceName
    let run := TsCmd.serveAdd id flag svc.port (buildDestination svc)
    if conflict then [run, .serveClear id, run] else [run]

/-- The `ReconcileServices` apply phase command trace.  `removeOrder` and
`addOrder` are enumerations of the `toRemove` and `toAdd` maps (Go map
iteration order is unspecified); `conflict k` tells whether the serve
invocation for key `k` reported a config conflict.  The removal loop runs
to completion before the add loop starts. -/
def applyCmds (removeOrder : List (String × ServiceEndpoint))
    (addOrder : List (String × ContainerService))
    (conflict : String → Bool) : List TsCmd :=
  removeOrder.flatMap (fun kv => removeServiceCmds kv.2.serviceName)
    ++ addOrder.flatMap (fun kv => addServiceCmds kv.2 (conflict kv.1))

/-- An add for key `k` ends in failure when the protocol flag is unsupported
or the oracle reports the invocation (after any retry) failed. -/
def addFailed (svc : ContainerService) (oracleFailed : Bool) : Bool :=
  (protocolFlag svc.serviceProtocol).isNone || oracleFailed

/-- The `ReconcileServices` `failCount` over the add loop. -/
def applyFailCount (addOrder : List (String × ContainerService))
    (addFails : String → Bool) : Nat :=
  (addOrder.filter (fun kv => addFailed kv.2 (addFails kv.1))).length

/-- Serve apply-phase result (`failed to add %d services` iff `failCount > 0`).
`removeFails` is the removal outcome oracle: removal failures are logged and
the loop continues; they never reach the return value. -/
def serveApplyError (addOrder : List (String × ContainerService))
    (addFails : String → Bool) (removeFails : String → Bool) : Bool :=
  let _ := removeFails
  applyFailCount addOrder addFails > 0

/-- One admissible full serve-phase command trace for a cycle: the diff
computed from the desired list and the observed status, applied with the
association lists' own enumeration order. -/
def defaultCycleCmds (ds : List ContainerService) (st : TailscaleStatus)
    (conflict : String → Bool) : List TsCmd :=
  let dm := buildDesiredMap ds
  let cm := getCurrentServices st
  applyCmds (computeToRemove dm cm) (computeToAdd dm cm) conflict

/-- From `funnel.go` the `addFunnel` command construction.  The `https`/`http` branch
shares the `--https` flag and an `http://` destination; `tcp` and
`tls-terminated-tcp` use a `tcp://` destination; anything else is the
`unsupported funnel protocol` error and no command runs. -/
def addFunnelCmds (svc : ContainerService) : Except String (List TsCmd) :=
  if !svc.funnelEnabled then .ok []
  else
    let funnelDestination := "http://" ++ svc.ipAddress ++ ":" ++ svc.funnelTargetPort
    let tcpDest := "tcp://" ++ svc.ipAddress ++ ":" ++ svc.funnelTargetPort
    if svc.funnelProtocol == "https" || svc.funnelProtocol == "http" then
      .ok [.funnelAdd "--https" svc.funnelFunnelPort funnelDestination]
    else if svc.funnelProtocol == "tcp" then
      .ok [.funnelAdd "--tcp" svc.funnelFunnelPort tcpDest]
    else if svc.funnelProtocol == "tls-terminated-tcp" then
      .ok [.funnelAdd "--tls-terminated-tcp" svc.funnelFunnelPort tcpDest]
    else .error ("unsupported funnel protocol: " ++ svc.funnelProtocol)

/-- Commands `addFunnel` actually executes (an unsupported protocol returns
an error before any invocation; the caller logs it and continues). -/
def addFunnelEmitted (svc : ContainerService) : List TsCmd :=
  match addFunnelCmds svc with
  | .ok cmds => cmds
  | .error _ => []

/-- From `funnel.go` `removeFunnel`: a daemon-level `tailscale funnel reset`,
regardless of the port being removed. -/
def removeFunnelCmds : List TsCmd :=
  [.funnelReset]

/-- Accumulator for the first loop of `reconcileFunnels`: the desired-funnel
map keyed `svc:<name>`, the `funnel-port -> container name` usage map, and
the duplicate-port diagnostics `(port, first owner, second owner)`. -/
structure FunnelScan where
  desired : List (String × ContainerService)
  portUsage : List (String × String)
  dupErrors : List (String × String × String)
deriving Repr, DecidableEq

/-- One step of the duplicate-funnel-port scan in `reconcileFunnels`. -/
def funnelScanStep (acc : FunnelScan) (svc : ContainerService) : FunnelScan :=
  if svc.funnelEnabled then
    let desired := mapInsert acc.desired ("svc:" ++ svc.serviceName) svc
    match mapLookup acc.portUsage svc.funnelFunnelPort with
    | some owner =>
        { acc with
          desired := desired
          dupErrors := acc.dupErrors ++ [(svc.funnelFunnelPort, owner, svc.containerName)] }
    | none =>
        { acc with
          desired := desired
          portUsage := mapInsert acc.portUsage svc.funnelFunnelPort svc.containerName }
  else acc

/-- The duplicate-funnel-port scan over the desired services. -/
def funnelScan (ds : List ContainerService) : FunnelScan :=
  ds.foldl funnelScanStep { desired := [], portUsage := [], dupErrors := [] }

/-- Result of `reconcileFunnels`: command trace, duplicate-port diagnostics,
and whether the reconciliation returned an error. -/
structure FunnelResult where
  commands : List TsCmd
  dupErrors : List (String × String × String)
  failed : Bool
deriving Repr, DecidableEq

/-- Per-desired-funnel commands of the first apply loop in
`reconcileFunnels`: looked up in the current-funnel map under the
`svc:<name>` key; absent or port-changed funnels are (re-)added, a changed
port removes the old funnel first. -/
def funnelAddLoopCmds (currentFunnels : List (String × String))
    (kv : String × ContainerService) : List TsCmd :=
  match mapLookup currentFunnels kv.1 with
  | none => addFunnelEmitted kv.2
  | some currentPort =>
      if currentPort != kv.2.funnelFunnelPort then
        removeFunnelCmds ++ addFunnelEmitted kv.2
      else []

/-- From `funnel.go` `reconcileFunnels`: scan for duplicate public ports (any
duplicate fails the reconciliation before a command runs); otherwise run the
add loop over the desired funnels, then the removal loop over current
funnels whose port no longer appears among the desired funnel ports.
`currentFunnels` is the observed `host:port -> port` map. -/
def reconcileFunnelCmds (ds : List ContainerService)
    (currentFunnels : List (String × String)) : FunnelResult :=
  if (funnelScan ds).dupErrors.length > 0 then
    { commands := [], dupErrors := (funnelScan ds).dupErrors, failed := true }
  else
    { commands :=
        (funnelScan ds).desired.flatMap (funnelAddLoopCmds currentFunnels)
          ++ currentFunnels.flatMap (fun kv =>
            if (funnelScan ds).desired.any
                (fun dv => dv.2.funnelFunnelPort == kv.2) then []
            else removeFunnelCmds)
      dupErrors := []
      failed := false }

/-- The `CleanupAllServices` command trace: reset each observed funnel, then
drain-and-clear every managed service parsed from the status. -/
def cleanupCmds (currentFunnels : List (String × String)) (st : TailscaleStatus) :
    List TsCmd :=
  currentFunnels.flatMap (fun _ => removeFunnelCmds)
    ++ (getCurrentServices st).flatMap (fun kv => removeServiceCmds kv.2.serviceName)

/-- Result of a control-plane GET for a service definition: 404, an existing
definition, or a transport/status failure. -/
inductive ApiGetResult where
  | notFound
  | found (tags ports : List String)
  | failed (msg : String)
deriving Repr, DecidableEq

/-- A control-plane HTTP request as the code builds it. -/
structure HttpRequest where
  method : String
  service : String
  tags : List String := []
  ports : List String := []
deriving Repr, DecidableEq

/-- From `SyncServiceDefinition`: prepend `svc:` when missing, GET the remote
definition; an existing definition is left alone; a 404 triggers one
creation PUT (`ports = ["tcp:<port>"]`, port defaulting to 443); any GET or
PUT failure surfaces as this call's error.  `oracle` is the GET outcome per
service id and `putOk` the PUT outcome. -/
def syncServiceDefinition (oracle : String → ApiGetResult) (putOk : String → Bool)
    (serviceName : String) (tags : List String) (port : String) :
    List HttpRequest × Except String Unit :=
  let name := if goHasPfx serviceName "svc:" then serviceName
    else "svc:" ++ serviceName
  let getReq : HttpRequest := { method := "GET", service := name }
  match oracle name with
  | .failed m => ([getReq], .error ("failed to get service details: " ++ m))
  | .found _ _ => ([getReq], .ok ())
  | .notFound =>
      let portVal := if port == "" then "443" else port
      let putReq : HttpRequest :=
        { method := "PUT", service := name, tags := tags
          ports := ["tcp:" ++ portVal] }
      if putOk name then ([getReq, putReq], .ok ())
      else ([getReq, putReq], .error "API returned error status")

/-- From `syncServiceDefinitions`: deduplicate the desired services by name (last
entry wins), sync each unique name, aggregate the failures.  `order` is the
enumeration of the unique-name map (Go map iteration). -/
def syncServiceDefinitions (oracle : String → ApiGetResult) (putOk : String → Bool)
    (order : List (String × List String × String)) :
    List HttpRequest × Except String Unit :=
  let results := order.map (fun kv => syncServiceDefinition oracle putOk kv.1 kv.2.1 kv.2.2)
  (results.flatMap (fun r => r.1),
   if results.any (fun r => match r.2 with | .error _ => true | .ok _ => false) then
     .error "failed to sync services to Control Plane"
   else .ok ())

/-- The unique-name map `syncServiceDefinitions` builds from the desired
services (tags and port from the last occurrence of each name). -/
def uniqueServiceDefs (ds : List ContainerService) :
    List (String × List String × String) :=
  ds.foldl (fun m svc => mapInsert m svc.serviceName (svc.tags, svc.port)) []

/-- The `ReconcileServices` return value: the serve apply phase fails the cycle
iff `failCount > 0`; then the funnel reconciliation error propagates; the
control-plane sync runs when an API key is configured but its outcome is
logged and dropped. -/
def reconcileServicesResult (ds : List ContainerService)
    (currentFunnels : List (String × String))
    (addOrder : List (String × ContainerService))
    (addFails : String → Bool) (removeFails : String → Bool)
    (apiKey : String) (oracle : String → ApiGetResult) (putOk : String → Bool) :
    Except String Unit :=
  if serveApplyError addOrder addFails removeFails then
    .error "failed to add services"
  else if (reconcileFunnelCmds ds currentFunnels).failed then
    .error "funnel reconciliation failed"
  else
    let _syncOutcome :=
      if apiKey != "" then (syncServiceDefinitions oracle putOk (uniqueServiceDefs ds)).2
      else .ok ()
    .ok ()

/-- Backend protocols `resolveProtocols` accepts. -/
def validProtocol (p : String) : Bool :=
  p == "http" || p == "https" || p == "https+insecure" || p == "tcp"
    || p == "tls-terminated-tcp"

/-- Listen protocols `resolveProtocols` accepts. -/
def validServiceProtocol (p : String) : Bool :=
  p == "http" || p == "https" || p == "tcp" || p == "tls-terminated-tcp"

/-- From `docker/client.go` `resolveProtocols`: smart defaults for the backend
protocol, listen port and listen protocol (the container id argument feeds
logs only and is dropped).  Returns `(protocol, servicePort,
serviceProtocol)`. -/
def resolveProtocols (targetPort servicePort serviceProtocol protocol : String) :
    Except String (String × String × String) :=
  let protocol :=
    if protocol == "" then (if targetPort == "443" then "https" else "http")
    else protocol
  if !validProtocol protocol then
    .error ("invalid protocol: " ++ protocol)
  else
    let resolved :=
      if servicePort == "" && serviceProtocol == "" then
        if protocol == "tcp" || protocol == "tls-terminated-tcp" then
          ("80", protocol)
        else ("80", "http")
      else if servicePort == "" && serviceProtocol != "" then
        (if serviceProtocol == "https" then "443" else "80", serviceProtocol)
      else if servicePort != "" && serviceProtocol == "" then
        (servicePort,
         if protocol == "tcp" || protocol == "tls-terminated-tcp" then protocol
         else if servicePort == "443" then "https"
         else if servicePort == "80" then "http"
         else "http")
      else (servicePort, serviceProtocol)
    if !validServiceProtocol resolved.2 then
      .error ("invalid service-protocol: " ++ resolved.2)
    else .ok (protocol, resolved.1, resolved.2)

/-- Container inspection result, reduced to the fields the code reads:
trimmed name, network mode, host-config port bindings and network-settings
ports (`"<port>/tcp" -> host ports`), and per-network IPs. -/
structure InspectData where
  name : String := ""
  networkMode : String := ""
  portBindings : List (String × List String) := []
  netPorts : List (String × List String) := []
  networks : List (String × String) := []
deriving Repr, DecidableEq

/-- Go `docker/client.go` `containerCtx`. -/
structure ContainerCtx where
  containerID : String := ""
  containerName : String := ""
  specifiedNetwork : String := ""
  inspect : InspectData := {}
  tags : List String := []
  destIP : String := ""
  isHostNetwork : Bool := false
  isNoNetwork : Bool := false
  isDirectMode : Bool := true
deriving Repr, DecidableEq

/-- First network with a non-empty IP (the fallback loop of
`getContainerIP`; Go map enumeration modelled by list order). -/
def firstNetworkIP (networks : List (String × String)) :
    Except String (String × String) :=
  match networks.find? (fun kv => kv.2 != "") with
  | some kv => .ok (kv.2, kv.1)
  | none => .error "container has no IP address on any network"

/-- From `docker/client.go` `getContainerIP`: exact match on the requested
network, then suffix match `_<name>` (compose prefixes), else error; with no
requested network, a network literally named `bridge` wins, else the first
network with a non-empty IP. -/
def getContainerIP (inspect : InspectData) (specifiedNetwork : String) :
    Except String (String × String) :=
  let networks := inspect.networks
  if specifiedNetwork != "" then
    match mapLookup networks specifiedNetwork with
    | some ip =>
        if ip == "" then .error "container has no IP address on requested network"
        else .ok (ip, specifiedNetwork)
    | none =>
        match networks.find? (fun kv => goHasSfx kv.1 ("_" ++ specifiedNetwork)) with
        | some kv =>
            if kv.2 == "" then .error "container has no IP address on matched network"
            else .ok (kv.2, kv.1)
        | none => .error "container is not connected to requested network"
  else
    match mapLookup networks "bridge" with
    | some ip => if ip != "" then .ok (ip, "bridge") else firstNetworkIP networks
    | none => firstNetworkIP networks

/-- Go `if bindings, ok := m[key]; ok && len(bindings) > 0 { bindings[0] }`. -/
def firstBinding (bindings : List (String × List String)) (key : String) : String :=
  match mapLookup bindings key with
  | some (h :: _) => h
  | _ => ""

/-- From `docker/client.go` `resolveDestPort`: host networking proxies to
`localhost:<port>`; direct mode (refused under `none` networking) proxies to
the container IP (the best-effort reachability dial only logs and is
dropped); otherwise the published host port for `<port>/tcp` is looked up in
the host config then the network settings, and a missing binding fails the
endpoint. -/
def resolveDestPort (cctx : ContainerCtx) (targetPort : String) :
    Except String (String × String) :=
  if cctx.isHostNetwork then .ok ("localhost", targetPort)
  else if cctx.isDirectMode then
    if cctx.isNoNetwork then
      .error "container uses network_mode none, cannot use direct mode"
    else
      match getContainerIP cctx.inspect cctx.specifiedNetwork with
      | .error e => .error e
      | .ok (ip, _) => .ok (ip, targetPort)
  else
    let key := targetPort ++ "/tcp"
    let hostPort := firstBinding cctx.inspect.portBindings key
    let hostPort :=
      if hostPort == "" then firstBinding cctx.inspect.netPorts key else hostPort
    if hostPort == "" then
      .error ("container port not published to host: " ++ targetPort)
    else .ok ("localhost", hostPort)

/-- Go label lookup `labels[k]` (missing keys read as `""`). -/
def label (labels : List (String × String)) (k : String) : String :=
  (mapLookup labels k).getD ""

/-- Tag parsing in `parseContainer`: split the label on commas, trim, drop
empty tokens (tokens without the `tag:` marker are warned about but kept);
an absent label falls back to the default tag list. -/
def parseTags (tagsLabel : String) (defaultTags : List String) : List String :=
  if tagsLabel != "" then
    (tagsLabel.splitOn ",").filterMap (fun part =>
      let t := part.trim
      if t == "" then none else some t)
  else defaultTags

/-- Digits of `indexedPortRegex`'s capture group, as a number. -/
def digitsToNat (l : List Char) : Nat :=
  l.foldl (fun n c => n * 10 + (c.toNat - 48)) 0

/-- An `indexedPortRegex` match: keys of the exact shape
`docktail.service.<digits>.port` yield their index (`strconv.Atoi`
overflow on absurdly long digit runs is not modelled). -/
def labelIndex (key : String) : Option Nat :=
  if goHasPfx key "docktail.service." && goHasSfx key ".port" then
    let mid := (key.data.drop 17).take (key.data.length - 17 - 5)
    if mid.length > 0 && mid.all Char.isDigit then
      some (digitsToNat mid)
    else none
  else none

/-- The distinct indexed-port indices of a label map, ascending
(`sort.Ints` over the collected index set). -/
def sortedIndices (labels : List (String × String)) : List Nat :=
  let idxs := labels.filterMap (fun kv => labelIndex kv.1)
  (List.range (idxs.foldl max 0 + 1)).filter (fun n => idxs.contains n)

/-- Label namespace of one indexed entry: `docktail.service.<N>.`. -/
def idxLabelPfx (idx : Nat) : String :=
  "docktail.service." ++ toString idx ++ "."

/-- Validation head of one indexed entry in `parseIndexedPorts`: `none` when
the entry is skipped before the dedup check (missing name, missing port, or
`resolveProtocols` rejection); otherwise the target port and the resolved
`(protocol, servicePort, serviceProtocol)` under the entry's name. -/
def idxResolve (labels : List (String × String)) (idx : Nat) :
    Option (String × String × String × String × String) :=
  let pfx := idxLabelPfx idx
  let name := label labels (pfx ++ "name")
  if name == "" then none
  else
    let targetPort := label labels (pfx ++ "port")
    if targetPort == "" then none
    else
      match resolveProtocols targetPort (label labels (pfx ++ "service-port"))
          (label labels (pfx ++ "service-protocol")) (label labels (pfx ++ "protocol")) with
      | .error _ => none
      | .ok (protocol, servicePort, serviceProtocol) =>
          some (name, targetPort, protocol, servicePort, serviceProtocol)

/-- Loop state of `parseIndexedPorts`: the
`<name>:<servicePort> -> index` dedup map (the primary entry holds marker
`0`), the emitted services, and the duplicate diagnostics
`(index, conflicting earlier index)`. -/
structure IdxState where
  used : List (String × Nat)
  out : List ContainerService
  warnings : List (Nat × Nat)
deriving Repr, DecidableEq

/-- One iteration of the `parseIndexedPorts` loop: skip entries that fail
validation; a dedup-key hit records a warning naming the earlier index and
emits nothing; otherwise register the key, resolve the destination (failure
skips the entry, key stays registered) and emit the service.  In direct
mode the primary entry's container IP is reused. -/
def idxStep (cctx : ContainerCtx) (labels : List (String × String))
    (st : IdxState) (idx : Nat) : IdxState :=
  match idxResolve labels idx with
  | none => st
  | some (name, targetPort, protocol, servicePort, serviceProtocol) =>
      match mapLookup st.used (name ++ ":" ++ servicePort) with
      | some prevIdx => { st with warnings := st.warnings ++ [(idx, prevIdx)] }
      | none =>
          match resolveDestPort cctx targetPort with
          | .error _ =>
              { st with used := mapInsert st.used (name ++ ":" ++ servicePort) idx }
          | .ok (destIP, destPort) =>
              { st with
                used := mapInsert st.used (name ++ ":" ++ servicePort) idx
                out := st.out ++
                  [{ containerID := cctx.containerID.take 12
                     containerName := cctx.containerName
                     serviceName := name
                     port := servicePort
                     targetPort := destPort
                     serviceProtocol := serviceProtocol
                     protocol := protocol
                     tags := cctx.tags
                     ipAddress := if cctx.isDirectMode && cctx.destIP != ""
                       then cctx.destIP else destIP
                     funnelEnabled := false }] }

/-- From `docker/client.go` `parseIndexedPorts`: scan the indexed entries in
ascending index order, starting from the dedup map seeded with the primary
entry's `(name, servicePort)` under marker index `0`. -/
def parseIndexedPorts (cctx : ContainerCtx) (labels : List (String × String))
    (primaryServiceName primaryServicePort : String) : IdxState :=
  (sortedIndices labels).foldl (idxStep cctx labels)
    { used := [(primaryServiceName ++ ":" ++ primaryServicePort, 0)]
      out := []
      warnings := [] }

/-- The per-container dedup key of a declaration:
`<service name>:<listen port>` (as built in `parseIndexedPorts`). -/
def svcKey (svc : ContainerService) : String :=
  svc.serviceName ++ ":" ++ svc.port

/-- Funnel label block of `parseContainer` (the `funnelEnabled` branch):
requires the container port; protocol defaults to `https` and public port to
`443`; for `https`/`http` the public port must be 443, 8443 or 10000; the
protocol must then be `https`, `tcp` or `tls-terminated-tcp`; finally the
funnel host port resolves like the service destination (host networking and
direct mode use the container port, otherwise the published binding is
required).  Returns `(funnelPort, funnelTargetPort, funnelFunnelPort,
funnelProtocol)`. -/
def parseFunnelBlock (cctx : ContainerCtx) (labels : List (String × String)) :
    Except String (String × String × String × String) :=
  let funnelPort := label labels "docktail.funnel.port"
  if funnelPort == "" then
    .error "funnel enabled but missing required label: docktail.funnel.port"
  else
    let funnelProtocol :=
      let fp := label labels "docktail.funnel.protocol"
      if fp == "" then "https" else fp
    let funnelFunnelPort :=
      let fp := label labels "docktail.funnel.funnel-port"
      if fp == "" then "443" else fp
    if (funnelProtocol == "https" || funnelProtocol == "http")
        && !(funnelFunnelPort == "443" || funnelFunnelPort == "8443"
          || funnelFunnelPort == "10000") then
      .error ("invalid funnel-port: " ++ funnelFunnelPort)
    else if !(funnelProtocol == "https" || funnelProtocol == "tcp"
        || funnelProtocol == "tls-terminated-tcp") then
      .error ("invalid funnel protocol: " ++ funnelProtocol)
    else if cctx.isHostNetwork then
      .ok (funnelPort, funnelPort, funnelFunnelPort, funnelProtocol)
    else if cctx.isDirectMode then
      .ok (funnelPort, funnelPort, funnelFunnelPort, funnelProtocol)
    else
      let key := funnelPort ++ "/tcp"
      let hostPort := firstBinding cctx.inspect.portBindings key
      let hostPort :=
        if hostPort == "" then firstBinding cctx.inspect.netPorts key else hostPort
      if hostPort == "" then
        .error ("funnel container port not published to host: " ++ funnelPort)
      else .ok (funnelPort, hostPort, funnelFunnelPort, funnelProtocol)

/-- From `docker/client.go` `parseContainer`: opt-in check, required name and
port labels, smart protocol defaults, destination resolution, tags, the
funnel block, then the primary service record followed by the indexed
entries.  A disabled container parses to no services; any validation failure
rejects the whole container. -/
def parseContainer (containerID : String) (labels : List (String × String))
    (inspect : InspectData) (defaultTags : List String) :
    Except String (List ContainerService) :=
  if label labels "docktail.service.enable" != "true" then .ok []
  else
    let serviceName := label labels "docktail.service.name"
    if serviceName == "" then
      .error "missing required label: docktail.service.name"
    else
      let targetPort := label labels "docktail.service.port"
      if targetPort == "" then
        .error "missing required label: docktail.service.port"
      else
        match resolveProtocols targetPort (label labels "docktail.service.service-port")
            (label labels "docktail.service.service-protocol")
            (label labels "docktail.service.protocol") with
        | .error e => .error e
        | .ok (protocol, port, serviceProtocol) =>
            let cctx0 : ContainerCtx :=
              { containerID := containerID
                containerName := inspect.name
                specifiedNetwork := label labels "docktail.service.network"
                inspect := inspect
                isHostNetwork := inspect.networkMode == "host"
                isNoNetwork := inspect.networkMode == "none"
                isDirectMode := label labels "docktail.service.direct" != "false" }
            match resolveDestPort cctx0 targetPort with
            | .error e => .error e
            | .ok (destIP, destPort) =>
                let tags := parseTags (label labels "docktail.tags") defaultTags
                let cctx := { cctx0 with tags := tags, destIP := destIP }
                let funnelEnabled := label labels "docktail.funnel.enable" == "true"
                let funnelBlock :=
                  if funnelEnabled then (parseFunnelBlock cctx labels).map some
                  else .ok none
                match funnelBlock with
                | .error e => .error e
                | .ok funnelFields =>
                    let primary : ContainerService :=
                      { containerID := containerID.take 12
                        containerName := cctx.containerName
                        serviceName := serviceName
                        port := port
                        targetPort := destPort
                        serviceProtocol := serviceProtocol
                        protocol := protocol
                        tags := tags
                        ipAddress := destIP
                        funnelEnabled := funnelEnabled
                        funnelPort := (funnelFields.map (fun f => f.1)).getD ""
                        funnelTargetPort := (funnelFields.map (fun f => f.2.1)).getD ""
                        funnelFunnelPort := (funnelFields.map (fun f => f.2.2.1)).getD ""
                        funnelProtocol := (funnelFields.map (fun f => f.2.2.2)).getD "" }
                    .ok (primary :: (parseIndexedPorts cctx labels serviceName port).out)

/-- The declarations one container contributes in `GetEnabledContainers`:
parse failures are logged and the container skipped. -/
def containerDeclarations (containerID : String) (labels : List (String × String))
    (inspect : InspectData) (defaultTags : List String) : List ContainerService :=
  match parseContainer containerID labels inspect defaultTags with
  | .ok svcs => svcs
  | .error _ => []

/-- Modelled from the spec: the VPN daemon itself is an external
collaborator (only its CLI and status JSON are specified).  Per §6, the
status after the first cycle's serve command for one endpoint is
`Services[svc_id].TCP[port].{HTTP,HTTPS}` with the boolean matching the
protocol flag the command used (`--http` / `--https`; `--tcp` sets
neither), and `Services[svc_id].Web[host:port].Handlers[path].Proxy`
holding the destination URL passed to the command. -/
def statusAfterServe (svc : ContainerService) : TailscaleStatus :=
  { services :=
      [("svc:" ++ svc.serviceName,
        { tcp := [(svc.port,
            { http := svc.serviceProtocol == "http"
              https := svc.serviceProtocol == "https" })]
          web := [("svc:" ++ svc.serviceName ++ ":" ++ svc.port,
            { handlers := [("/", { proxy := buildDestination svc })] })] })] }

/-- Concrete endpoint with a `tls-terminated-tcp` listen protocol. -/
def tlsTcpSvc : ContainerService :=
  { serviceName := "db"
    port := "443"
    targetPort := "5432"
    serviceProtocol := "tls-terminated-tcp"
    protocol := "tcp"
    ipAddress := "localhost" }

/-- Concrete observed status with two managed services, listed in
reverse-alphabetical order. -/
def twoServicesStatus : TailscaleStatus :=
  { services :=
      [("svc:b", { tcp := [("1", { http := true, https := false })], web := [] }),
       ("svc:a", { tcp := [("1", { http := true, https := false })], web := [] })] }

/-- Concrete funnel-enabled container on public port 443. -/
def funnelSvc443 : ContainerService :=
  { containerName := "c1"
    serviceName := "app"
    ipAddress := "127.0.0.1"
    funnelEnabled := true
    funnelPort := "80"
    funnelTargetPort := "80"
    funnelFunnelPort := "443"
    funnelProtocol := "https" }

/-- A second funnel-enabled container claiming the same public port 443. -/
def funnelSvc443b : ContainerService :=
  { funnelSvc443 with containerName := "c2", serviceName := "app2" }

/-- Concrete label map with two indexed entries; index 1 resolves to the
primary's `(web, 80)` pair and must be dropped. -/
def dupIdxLabels : List (String × String) :=
  [("docktail.service.1.port", "3000"), ("docktail.service.1.name", "web"),
   ("docktail.service.1.service-port", "80"),
   ("docktail.service.2.port", "5000"), ("docktail.service.2.name", "other")]

/-- Concrete container context for the indexed-port examples. -/
def dupIdxCtx : ContainerCtx :=
  { containerID := "abcdef123456"
    containerName := "c"
    inspect := { networks := [("bridge", "10.0.0.2")] }
    destIP := "10.0.0.2" }

/-- Concrete desired endpoint used to exercise the diff. -/
def webSvc : ContainerService :=
  { serviceName := "x"
    port := "80"
    targetPort := "8080"
    serviceProtocol := "http"
    protocol := "http"
    ipAddress := "localhost" }

/-- Concrete observed status where `svc:x` listens on 80 over HTTP but
proxies to a different destination than `webSvc` wants. -/
def staleWebStatus : TailscaleStatus :=
  { services :=
      [("svc:x",
        { tcp := [("80", { http := true, https := false })]
          web := [("svc:x:80", { handlers := [("/", { proxy := "http://localhost:9090" })] })] })] }

theorem goHasPfx_append (a b : String) : goHasPfx (a ++ b) a = true := by
  rw [goHasPfx, List.isPrefixOf_iff_prefix, String.data_append]
  exact List.prefix_append _ _

theorem mapLookup_mem {α : Type} {m : List (String × α)} {k : String} {v : α}
    (h : mapLookup m k = some v) : (k, v) ∈ m := by
  unfold mapLookup at h
  cases hf : m.find? (fun kv => kv.1 == k) with
  | none => rw [hf] at h; simp at h
  | some kv =>
    rw [hf] at h
    simp only [Option.map_some', Option.some.injEq] at h
    have hm := List.mem_of_find?_eq_some hf
    have hp := List.find?_some hf
    have hk : kv.1 = k := by simpa using hp
    obtain ⟨k1, v1⟩ := kv
    simp only at hk h
    rw [hk, h] at hm
    exact hm

theorem mapLookup_eq_some_of_mem {α : Type} {m : List (String × α)} {k : String}
    {v : α} (hnd : (mapKeys m).Nodup) (hmem : (k, v) ∈ m) :
    mapLookup m k = some v := by
  induction m with
  | nil => cases hmem
  | cons hd tl ih =>
    simp only [mapKeys, List.map_cons, List.nodup_cons] at hnd
    rcases List.mem_cons.mp hmem with heq | htl
    · subst heq
      simp [mapLookup, List.find?]
    · have hne : hd.1 ≠ k := by
        intro hcontra
        exact hnd.1 (hcontra ▸ (List.mem_map.mpr ⟨(k, v), htl, rfl⟩))
      simp only [mapLookup, List.find?]
      rw [show (hd.1 == k) = false from beq_eq_false_iff_ne.mpr hne]
      exact ih hnd.2 htl

theorem mapLookup_eq_none_iff {α : Type} {m : List (String × α)} {k : String} :
    mapLookup m k = none ↔ ∀ v, (k, v) ∉ m := by
  unfold mapLookup
  rw [Option.map_eq_none', List.find?_eq_none]
  constructor
  · intro h v hv
    exact h (k, v) hv (by simp)
  · intro h kv hkv hbeq
    have : kv.1 = k := by simpa using hbeq
    obtain ⟨k1, v1⟩ := kv
    simp only at this
    subst this
    exact h v1 hkv

theorem mem_mapInsert {α : Type} {m : List (String × α)} {k : String} {v : α}
    {kv : String × α} :
    kv ∈ mapInsert m k v ↔ (kv ∈ m ∧ kv.1 ≠ k) ∨ kv = (k, v) := by
  unfold mapInsert
  rw [List.mem_append, List.mem_filter]
  simp [bne_iff_ne]

theorem mapKeys_nodup_mapInsert {α : Type} {m : List (String × α)} {k : String}
    {v : α} (h : (mapKeys m).Nodup) : (mapKeys (mapInsert m k v)).Nodup := by
  unfold mapInsert mapKeys
  rw [List.map_append]
  apply List.Nodup.append
  · exact ((List.filter_sublist m).map _).nodup h
  · simp
  · intro a ha hb
    simp only [List.map_cons, List.map_nil, List.mem_singleton] at hb
    subst hb
    obtain ⟨kv, hkv, hfst⟩ := List.mem_map.mp ha
    have := (List.mem_filter.mp hkv).2
    rw [hfst] at this
    simp at this

theorem find?_key_filter_out {α : Type} (m : List (String × α)) (k : String) :
    (m.filter (fun kv => kv.1 != k)).find? (fun kv => kv.1 == k) = none := by
  rw [List.find?_eq_none]
  intro kv hkv
  have := (List.mem_filter.mp hkv).2
  simp only [bne_iff_ne, ne_eq] at this
  simp [this]

theorem find?_key_filter_ne {α : Type} (m : List (String × α)) {k k' : String}
    (h : k' ≠ k) :
    (m.filter (fun kv => kv.1 != k)).find? (fun kv => kv.1 == k') =
      m.find? (fun kv => kv.1 == k') := by
  induction m with
  | nil => rfl
  | cons hd tl ih =>
    rw [List.filter_cons]
    cases hq : (hd.1 == k') with
    | true =>
      have hk' : hd.1 = k' := by simpa using hq
      have hkeep : (hd.1 != k) = true := by simp [bne_iff_ne, hk', h]
      rw [if_pos hkeep,
        @List.find?_cons_of_pos _ (fun kv => kv.1 == k') hd _ hq,
        @List.find?_cons_of_pos _ (fun kv => kv.1 == k') hd _ hq]
    | false =>
      have hq' : ¬ ((fun kv : String × α => kv.1 == k') hd = true) := by simp [hq]
      rw [@List.find?_cons_of_neg _ (fun kv => kv.1 == k') hd tl hq']
      by_cases hkeep : (hd.1 != k) = true
      · rw [if_pos hkeep,
          @List.find?_cons_of_neg _ (fun kv => kv.1 == k') hd _ hq']
        exact ih
      · rw [if_neg hkeep]
        exact ih

theorem mapLookup_mapInsert_self {α : Type} (m : List (String × α)) (k : String)
    (v : α) : mapLookup (mapInsert m k v) k = some v := by
  unfold mapLookup mapInsert
  rw [List.find?_append, find?_key_filter_out]
  simp

theorem mapLookup_mapInsert_ne {α : Type} (m : List (String × α)) {k k' : String}
    (v : α) (h : k' ≠ k) : mapLookup (mapInsert m k v) k' = mapLookup m k' := by
  unfold mapLookup mapInsert
  rw [List.find?_append, find?_key_filter_ne m h]
  have : List.find? (fun kv => kv.1 == k') [(k, v)] = none := by
    have : (k == k') = false := beq_eq_false_iff_ne.mpr (Ne.symm h)
    simp [List.find?, this]
  rw [this]
  cases m.find? (fun kv => kv.1 == k') <;> rfl

theorem mapKeys_nodup_foldl_insert_pairs {α : Type} (ps : List (String × α)) :
    ∀ m : List (String × α), (mapKeys m).Nodup →
      (mapKeys (ps.foldl (fun acc kv => mapInsert acc kv.1 kv.2) m)).Nodup := by
  induction ps with
  | nil => intro m h; exact h
  | cons hd tl ih =>
    intro m h
    exact ih _ (mapKeys_nodup_mapInsert h)

theorem mem_foldl_insert_pairs {α : Type} (ps : List (String × α)) :
    ∀ (m : List (String × α)) (kv : String × α),
      kv ∈ ps.foldl (fun acc p => mapInsert acc p.1 p.2) m → kv ∈ m ∨ kv ∈ ps := by
  induction ps with
  | nil => intro m kv h; exact Or.inl h
  | cons hd tl ih =>
    intro m kv h
    rcases ih _ _ h with hm | htl
    · rcases mem_mapInsert.mp hm with ⟨hmm, _⟩ | heq
      · exact Or.inl hmm
      · subst heq
        refine Or.inr (List.mem_cons_self _ _)
    · exact Or.inr (List.mem_cons_of_mem _ htl)

theorem getCurrentServices_keysNodup (st : TailscaleStatus) :
    (mapKeys (getCurrentServices st)).Nodup := by
  unfold getCurrentServices
  generalize hm : ([] : List (String × ServiceEndpoint)) = m
  have hnd : (mapKeys m).Nodup := by rw [← hm]; simp [mapKeys]
  clear hm
  induction st.services generalizing m with
  | nil => exact hnd
  | cons hd tl ih =>
    rw [List.foldl_cons]
    by_cases hmg : isManagedService hd.1 = true
    · rw [if_pos hmg]
      exact ih _ (mapKeys_nodup_foldl_insert_pairs _ _ hnd)
    · rw [if_neg hmg]
      exact ih _ hnd

theorem getCurrentServices_entry_shape (st : TailscaleStatus) :
    ∀ kv ∈ getCurrentServices st,
      isManagedService kv.2.serviceName = true ∧
      kv.1 = kv.2.serviceName ++ ":" ++ kv.2.port := by
  unfold getCurrentServices
  generalize hm : ([] : List (String × ServiceEndpoint)) = m
  have hok : ∀ kv ∈ m, isManagedService kv.2.serviceName = true ∧
      kv.1 = kv.2.serviceName ++ ":" ++ kv.2.port := by
    rw [← hm]; intro kv h; cases h
  clear hm
  induction st.services generalizing m with
  | nil => exact hok
  | cons hd tl ih =>
    rw [List.foldl_cons]
    by_cases hmg : isManagedService hd.1 = true
    · rw [if_pos hmg]
      refine ih _ ?_
      intro kv hkv
      rcases mem_foldl_insert_pairs _ _ _ hkv with hmm | hin
      · exact hok kv hmm
      · obtain ⟨pt, _, heq⟩ := List.mem_map.mp hin
        subst heq
        exact ⟨hmg, rfl⟩
    · rw [if_neg hmg]
      exact ih _ hok

theorem buildDesiredMap_keysNodup (ds : List ContainerService) :
    (mapKeys (buildDesiredMap ds)).Nodup := by
  unfold buildDesiredMap
  generalize hm : ([] : List (String × ContainerService)) = m
  have hnd : (mapKeys m).Nodup := by rw [← hm]; simp [mapKeys]
  clear hm
  induction ds generalizing m with
  | nil => exact hnd
  | cons hd tl ih =>
    rw [List.foldl_cons]
    exact ih _ (mapKeys_nodup_mapInsert hnd)

theorem buildDesiredMap_entry_shape (ds : List ContainerService) :
    ∀ kv ∈ buildDesiredMap ds, kv.1 = desiredKey kv.2 := by
  unfold buildDesiredMap
  generalize hm : ([] : List (String × ContainerService)) = m
  have hok : ∀ kv ∈ m, kv.1 = desiredKey kv.2 := by
    rw [← hm]; intro kv h; cases h
  clear hm
  induction ds generalizing m with
  | nil => exact hok
  | cons hd tl ih =>
    rw [List.foldl_cons]
    refine ih _ ?_
    intro kv hkv
    rcases mem_mapInsert.mp hkv with ⟨hmm, _⟩ | heq
    · exact hok kv hmm
    · subst heq; rfl

/-- C2: the defaults resolver implements the smart-defaults matrix.  An
unset backend protocol defaults to `https` exactly when the container port
label is `443`, else `http`; with listen port and listen protocol both
unset the result is `(80, bp)` for `tcp`/`tls-terminated-tcp` backends and
`(80, http)` otherwise; with only the listen protocol set the listen port
defaults to `443` for `https` and `80` otherwise; with only the listen
port set the listen protocol is the backend protocol for
`tcp`/`tls-terminated-tcp`, else `https` for port 443, `http` for port 80
and `http` for any other port. -/
theorem c2_smart_defaults (cport lp lproto bp : String) :
    (resolveProtocols cport lp lproto "" =
      resolveProtocols cport lp lproto (if cport == "443" then "https" else "http")) ∧
    (validProtocol bp = true →
      resolveProtocols cport "" "" bp =
        .ok (bp, "80",
          if bp == "tcp" || bp == "tls-terminated-tcp" then bp else "http")) ∧
    (validProtocol bp = true → lproto ≠ "" → validServiceProtocol lproto = true →
      resolveProtocols cport "" lproto bp =
        .ok (bp, if lproto == "https" then "443" else "80", lproto)) ∧
    (validProtocol bp = true → lp ≠ "" →
      resolveProtocols cport lp "" bp =
        .ok (bp, lp,
          if bp == "tcp" || bp == "tls-terminated-tcp" then bp
          else if lp == "443" then "https"
          else if lp == "80" then "http"
          else "http")) := by
  have hbp_cases : validProtocol bp = true →
      bp = "http" ∨ bp = "https" ∨ bp = "https+insecure" ∨ bp = "tcp" ∨
        bp = "tls-terminated-tcp" := by
    intro h
    have h' := h
    simp only [validProtocol, Bool.or_eq_true, beq_iff_eq] at h'
    tauto
  have hlproto_cases : validServiceProtocol lproto = true →
      lproto = "http" ∨ lproto = "https" ∨ lproto = "tcp" ∨
        lproto = "tls-terminated-tcp" := by
    intro h
    have h' := h
    simp only [validServiceProtocol, Bool.or_eq_true, beq_iff_eq] at h'
    tauto
  refine ⟨?_, ?_, ?_, ?_⟩
  · cases hc : cport == "443" <;> simp [resolveProtocols, hc]
  · intro h
    rcases hbp_cases h with rfl | rfl | rfl | rfl | rfl <;> rfl
  · intro h hne hv
    rcases hbp_cases h with rfl | rfl | rfl | rfl | rfl <;>
      rcases hlproto_cases hv with rfl | rfl | rfl | rfl <;> rfl
  · intro h hne
    have hlp : (lp == "") = false := beq_eq_false_iff_ne.mpr hne
    rcases hbp_cases h with rfl | rfl | rfl | rfl | rfl <;>
      · by_cases h443 : lp = "443"
        · subst h443; rfl
        · by_cases h80 : lp = "80"
          · subst h80; rfl
          · simp [resolveProtocols, hlp, hne, h443, h80,
              beq_eq_false_iff_ne.mpr h443, beq_eq_false_iff_ne.mpr h80,
              validProtocol, validServiceProtocol]

/-- Witness for C2 at concrete label values: a container port of 443 with
nothing else set, a bare `tcp` backend, listen protocol `https` alone, and
listen port 8443 with a `tls-terminated-tcp` backend. -/
theorem c2_smart_defaults_witness :
    resolveProtocols "443" "" "" "" = resolveProtocols "443" "" "" "https" ∧
    resolveProtocols "80" "" "" "tcp" = .ok ("tcp", "80", "tcp") ∧
    resolveProtocols "80" "" "https" "http" = .ok ("http", "443", "https") ∧
    resolveProtocols "80" "8443" "" "tls-terminated-tcp" =
      .ok ("tls-terminated-tcp", "8443", "tls-terminated-tcp") := by
  refine ⟨?_, ?_, ?_, ?_⟩
  · have h := (c2_smart_defaults "443" "" "" "").1
    simpa using h
  · exact (c2_smart_defaults "80" "" "" "tcp").2.1 (by decide)
  · exact (c2_smart_defaults "80" "" "https" "http").2.2.1 (by decide)
      (by decide) (by decide)
  · exact (c2_smart_defaults "80" "8443" "" "tls-terminated-tcp").2.2.2
      (by decide) (by decide)

/-- C1: the diff keys both sides by `(service_name, listen_port)` (desired
key `svc:<name>:<port>`, observed key `<svc-id>:<port>`); a key only in the
desired map is added; a key in both is re-added iff the observed destination
differs from `<backend_protocol>://<destination_host>:<destination_port>`
or the observed protocol differs from the desired listen protocol (else no
action for that key); a key only in the observed map is withdrawn. -/
theorem c1_diff_by_service_and_port (ds : List ContainerService)
    (st : TailscaleStatus) (k : String) :
    (∀ d ∈ ds, desiredKey d = "svc:" ++ d.serviceName ++ ":" ++ d.port) ∧
    (∀ kv ∈ getCurrentServices st, kv.1 = kv.2.serviceName ++ ":" ++ kv.2.port) ∧
    (∀ d, mapLookup (buildDesiredMap ds) k = some d →
      mapLookup (getCurrentServices st) k = none →
      (k, d) ∈ computeToAdd (buildDesiredMap ds) (getCurrentServices st)) ∧
    (∀ d cur, mapLookup (buildDesiredMap ds) k = some d →
      mapLookup (getCurrentServices st) k = some cur →
      ((k, d) ∈ computeToAdd (buildDesiredMap ds) (getCurrentServices st) ↔
        (cur.destination ≠ d.protocol ++ "://" ++ d.ipAddress ++ ":" ++ d.targetPort ∨
         cur.protocol ≠ d.serviceProtocol))) ∧
    (∀ cur, mapLookup (getCurrentServices st) k = some cur →
      ((k, cur) ∈ computeToRemove (buildDesiredMap ds) (getCurrentServices st) ↔
        mapLookup (buildDesiredMap ds) k = none)) := by
  refine ⟨fun d _ => rfl, fun kv h => (getCurrentServices_entry_shape st kv h).2,
    ?_, ?_, ?_⟩
  · intro d hd hnone
    refine List.mem_filter.mpr ⟨mapLookup_mem hd, ?_⟩
    simp only
    rw [hnone]
  · intro d cur hd hcur
    rw [computeToAdd, List.mem_filter]
    constructor
    · intro h
      have hp := h.2
      simp only at hp
      rw [hcur] at hp
      have : needsUpdate cur d = true := hp
      simpa [needsUpdate, bne_iff_ne, Bool.or_eq_true, buildDestination] using this
    · intro h
      refine ⟨mapLookup_mem hd, ?_⟩
      simp only
      rw [hcur]
      simpa [needsUpdate, bne_iff_ne, Bool.or_eq_true, buildDestination] using h
  · intro cur hcur
    rw [computeToRemove, List.mem_filter]
    constructor
    · intro h
      exact Option.isNone_iff_eq_none.mp h.2
    · intro h
      exact ⟨mapLookup_mem hcur, by simp [h]⟩

/-- Witness for C1: with `webSvc` desired and `staleWebStatus` observed, the
shared key `svc:x:80` takes the update branch (destination changed), so the
pair is in `toAdd`. -/
theorem c1_diff_by_service_and_port_witness :
    ("svc:x:80", webSvc) ∈
      computeToAdd (buildDesiredMap [webSvc]) (getCurrentServices staleWebStatus) := by
  have h := (c1_diff_by_service_and_port [webSvc] staleWebStatus "svc:x:80").2.2.2.1
    webSvc
    { serviceName := "svc:x", port := "80", protocol := "http"
      destination := "http://localhost:9090" }
    (by decide) (by decide)
  exact h.mpr (by decide)

theorem cmdServiceId_removeServiceCmds {c : TsCmd} {name : String}
    (h : c ∈ removeServiceCmds name) :
    cmdServiceId c = some name ∧ isManagedService name = true := by
  unfold removeServiceCmds at h
  by_cases hm : isManagedService name = true
  · rw [if_pos hm] at h
    simp only [List.mem_cons, List.not_mem_nil, or_false] at h
    rcases h with rfl | rfl
    · exact ⟨rfl, hm⟩
    · exact ⟨rfl, hm⟩
  · rw [if_neg hm] at h
    cases h

theorem cmdServiceId_addServiceCmds {c : TsCmd} {svc : ContainerService}
    {b : Bool} (h : c ∈ addServiceCmds svc b) :
    ∀ id, cmdServiceId c = some id → id = "svc:" ++ svc.serviceName := by
  unfold addServiceCmds at h
  cases hf : protocolFlag svc.serviceProtocol with
  | none => rw [hf] at h; cases h
  | some flag =>
    rw [hf] at h
    simp only at h
    cases b with
    | true =>
      simp only [if_true, List.mem_cons, List.not_mem_nil, or_false] at h
      rcases h with rfl | rfl | rfl
      · intro id hid; cases hid; rfl
      · intro id hid; cases hid; rfl
      · intro id hid; cases hid; rfl
    | false =>
      rw [if_neg (by simp)] at h
      simp only [List.mem_cons, List.not_mem_nil, or_false] at h
      subst h
      intro id hid; cases hid; rfl

theorem isWithdraw_removeServiceCmds {c : TsCmd} {name : String}
    (h : c ∈ removeServiceCmds name) : isWithdrawCmd c = true := by
  unfold removeServiceCmds at h
  by_cases hm : isManagedService name = true
  · rw [if_pos hm] at h
    simp only [List.mem_cons, List.not_mem_nil, or_false] at h
    rcases h with rfl | rfl
    · rfl
    · rfl
  · rw [if_neg hm] at h
    cases h

theorem isAddPhase_addServiceCmds {c : TsCmd} {svc : ContainerService} {b : Bool}
    (h : c ∈ addServiceCmds svc b) : isAddPhaseCmd c = true := by
  unfold addServiceCmds at h
  cases hf : protocolFlag svc.serviceProtocol with
  | none => rw [hf] at h; cases h
  | some flag =>
    rw [hf] at h
    simp only at h
    cases b with
    | true =>
      simp only [if_true, List.mem_cons, List.not_mem_nil, or_false] at h
      rcases h with rfl | rfl | rfl
      · rfl
      · rfl
      · rfl
    | false =>
      rw [if_neg (by simp)] at h
      simp only [List.mem_cons, List.not_mem_nil, or_false] at h
      subst h
      rfl

/-- C3: managed-namespace safety.  Entries of the daemon status whose id
lacks the `svc:` marker never enter the observed map; the remove operation
refuses an unmanaged id outright (no drain or clear runs); and every serve,
drain or clear command issued by a cycle's apply phase or by the shutdown
cleanup targets an id starting with `svc:`. -/
theorem c3_managed_namespace_safety (st : TailscaleStatus)
    (removeOrder : List (String × ServiceEndpoint))
    (addOrder : List (String × ContainerService))
    (conflict : String → Bool)
    (currentFunnels : List (String × String)) :
    (∀ kv ∈ getCurrentServices st, isManagedService kv.2.serviceName = true) ∧
    (∀ name, isManagedService name = false → removeServiceCmds name = []) ∧
    (∀ c ∈ applyCmds removeOrder addOrder conflict ++ cleanupCmds currentFunnels st,
      ∀ id, cmdServiceId c = some id → isManagedService id = true) := by
  refine ⟨fun kv h => (getCurrentServices_entry_shape st kv h).1, ?_, ?_⟩
  · intro name h
    unfold removeServiceCmds
    rw [if_neg (by simp [h])]
  · intro c hc id hid
    rcases List.mem_append.mp hc with hcycle | hclean
    · rcases List.mem_append.mp hcycle with hrem | hadd
      · obtain ⟨kv, _, hcin⟩ := List.mem_flatMap.mp hrem
        obtain ⟨hce, hm⟩ := cmdServiceId_removeServiceCmds hcin
        rw [hce] at hid
        cases hid
        exact hm
      · obtain ⟨kv, _, hcin⟩ := List.mem_flatMap.mp hadd
        have := cmdServiceId_addServiceCmds hcin id hid
        subst this
        exact goHasPfx_append "svc:" kv.2.serviceName
    · unfold cleanupCmds at hclean
      rcases List.mem_append.mp hclean with hfun | hsvc
      · obtain ⟨kv, _, hcin⟩ := List.mem_flatMap.mp hfun
        simp only [removeFunnelCmds, List.mem_cons, List.not_mem_nil, or_false] at hcin
        subst hcin
        cases hid
      · obtain ⟨kv, _, hcin⟩ := List.mem_flatMap.mp hsvc
        obtain ⟨hce, hm⟩ := cmdServiceId_removeServiceCmds hcin
        rw [hce] at hid
        cases hid
        exact hm

/-- Witness for C3: the remove operation refuses the unmanaged id
`externally-created`, issuing no command. -/
theorem c3_managed_namespace_safety_witness :
    removeServiceCmds "externally-created" = [] :=
  (c3_managed_namespace_safety twoServicesStatus [] [] (fun _ => false) []).2.1
    "externally-created" (by decide)

/-- C4 (amended): within the apply phase every withdraw command precedes
every add/update command; the phase's return value is an error iff some add
ended in failure (unsupported protocol flag or a failed invocation), and it
is unaffected by the removal outcomes; iteration order within each group is
the unspecified Go map enumeration, not a sorted order (see the
counterexample). -/
theorem c4_apply_order_and_result
    (removeOrder : List (String × ServiceEndpoint))
    (addOrder : List (String × ContainerService))
    (conflict addFails removeFails : String → Bool) :
    (∃ withdrawPart addPart,
      applyCmds removeOrder addOrder conflict = withdrawPart ++ addPart ∧
      (∀ c ∈ withdrawPart, isWithdrawCmd c = true) ∧
      (∀ c ∈ addPart, isAddPhaseCmd c = true)) ∧
    (serveApplyError addOrder addFails removeFails = true ↔
      ∃ kv ∈ addOrder, addFailed kv.2 (addFails kv.1) = true) ∧
    (∀ rf : String → Bool,
      serveApplyError addOrder addFails rf =
        serveApplyError addOrder addFails removeFails) := by
  refine ⟨?_, ?_, fun rf => rfl⟩
  · refine ⟨removeOrder.flatMap (fun kv => removeServiceCmds kv.2.serviceName),
      addOrder.flatMap (fun kv => addServiceCmds kv.2 (conflict kv.1)), rfl, ?_, ?_⟩
    · intro c hc
      obtain ⟨kv, _, hcin⟩ := List.mem_flatMap.mp hc
      exact isWithdraw_removeServiceCmds hcin
    · intro c hc
      obtain ⟨kv, _, hcin⟩ := List.mem_flatMap.mp hc
      exact isAddPhase_addServiceCmds hcin
  · constructor
    · intro h
      have h0 : 0 < applyFailCount addOrder addFails := by
        simpa [serveApplyError] using h
      rw [applyFailCount, List.length_pos] at h0
      obtain ⟨kv, hkv⟩ := List.exists_mem_of_ne_nil _ h0
      obtain ⟨hmem, hp⟩ := List.mem_filter.mp hkv
      exact ⟨kv, hmem, hp⟩
    · rintro ⟨kv, hmem, hp⟩
      have hne : (addOrder.filter (fun kv => addFailed kv.2 (addFails kv.1))) ≠ [] :=
        List.ne_nil_of_mem (List.mem_filter.mpr ⟨hmem, hp⟩)
      have h0 : 0 < applyFailCount addOrder addFails := by
        rw [applyFailCount, List.length_pos]
        exact hne
      simpa [serveApplyError] using h0

/-- Witness for C4: a phase with one removal and one failing add (the
desired endpoint's listen protocol has no CLI flag) returns an error. -/
theorem c4_apply_order_and_result_witness :
    serveApplyError [("svc:x:80", { webSvc with serviceProtocol := "bogus" })]
      (fun _ => false) (fun _ => true) = true :=
  (c4_apply_order_and_result []
    [("svc:x:80", { webSvc with serviceProtocol := "bogus" })]
    (fun _ => false) (fun _ => false) (fun _ => true)).2.1.mpr
    ⟨("svc:x:80", { webSvc with serviceProtocol := "bogus" }),
      List.mem_singleton.mpr rfl, by decide⟩

/-- Counterexample to C4's sorted-order clause: the observed map lists
`svc:b:1` before `svc:a:1`; that admissible enumeration of the Go map
drives the withdraw loop, which therefore drains `svc:b` before `svc:a`
even though `svc:a:1` sorts first, and the reversed (equally admissible)
enumeration yields a different command sequence, so the order is neither
sorted nor deterministic. -/
theorem c4_sorted_iteration_counterexample :
    applyCmds (computeToRemove (buildDesiredMap []) (getCurrentServices twoServicesStatus))
        [] (fun _ => false) =
      [.serveDrain "svc:b", .serveClear "svc:b", .serveDrain "svc:a", .serveClear "svc:a"] ∧
    mapKeys (computeToRemove (buildDesiredMap []) (getCurrentServices twoServicesStatus)) =
      ["svc:b:1", "svc:a:1"] ∧
    "svc:a:1".data < "svc:b:1".data ∧
    (computeToRemove (buildDesiredMap []) (getCurrentServices twoServicesStatus)).reverse.Perm
      (computeToRemove (buildDesiredMap []) (getCurrentServices twoServicesStatus)) ∧
    applyCmds (computeToRemove (buildDesiredMap [])
        (getCurrentServices twoServicesStatus)).reverse [] (fun _ => false) ≠
      applyCmds (computeToRemove (buildDesiredMap []) (getCurrentServices twoServicesStatus))
        [] (fun _ => false) := by
  refine ⟨by decide, by decide, by decide, List.reverse_perm _, by decide⟩

/-- C7 is violated by the code: in a funnel cycle that both adds (desired
public port 443) and removes (stale current funnel on 8443), the add loop
runs first and the removal — a coarse daemon-level reset that wipes every
funnel — is issued after it, wiping the funnel just added. -/
theorem c7_removal_issued_after_addition :
    reconcileFunnelCmds [funnelSvc443] [("node.ts.net:8443", "8443")] =
      { commands := [.funnelAdd "--https" "443" "http://127.0.0.1:80", .funnelReset]
        dupErrors := []
        failed := false } := by decide

theorem goContains_append_right (a b : String) : goContains (a ++ b) b = true := by
  unfold goContains
  rw [List.any_eq_true]
  refine ⟨a.data.length, ?_, ?_⟩
  · rw [List.mem_range, String.data_append, List.length_append]
    omega
  · rw [String.data_append, List.drop_left, List.isPrefixOf_iff_prefix]

theorem buildDestination_not_empty (svc : ContainerService) :
    (buildDestination svc != "") = true := by
  rw [bne_iff_ne]
  intro h
  have hd : (buildDestination svc).data = [] := by rw [h]
  rw [buildDestination] at hd
  simp [String.data_append] at hd

theorem webDestination_statusAfterServe (svc : ContainerService) :
    webDestination
      [("svc:" ++ svc.serviceName ++ ":" ++ svc.port,
        { handlers := [("/", { proxy := buildDestination svc })] })]
      svc.port = buildDestination svc := by
  unfold webDestination
  have hcontains : goContains ("svc:" ++ svc.serviceName ++ ":" ++ svc.port)
      (":" ++ svc.port) = true := by
    rw [String.append_assoc]
    exact goContains_append_right _ _
  rw [@List.find?_cons_of_pos _
    (fun kv : String × TailscaleWebConfig => goContains kv.1 (":" ++ svc.port))
    _ _ hcontains]
  show firstProxy [("/", { proxy := buildDestination svc })] = buildDestination svc
  unfold firstProxy
  rw [@List.find?_cons_of_pos _
    (fun h : String × TailscaleHandler => h.2.proxy != "") _ _
    (buildDestination_not_empty svc)]

theorem parse_statusAfterServe (svc : ContainerService) :
    getCurrentServices (statusAfterServe svc) =
      [("svc:" ++ svc.serviceName ++ ":" ++ svc.port,
        { serviceName := "svc:" ++ svc.serviceName
          port := svc.port
          protocol := statusProtocol
            { http := svc.serviceProtocol == "http"
              https := svc.serviceProtocol == "https" }
          destination := buildDestination svc })] := by
  have h1 : getCurrentServices (statusAfterServe svc) =
      if isManagedService ("svc:" ++ svc.serviceName) = true then
        (serviceEndpoints ("svc:" ++ svc.serviceName)
          { tcp := [(svc.port,
              { http := svc.serviceProtocol == "http"
                https := svc.serviceProtocol == "https" })]
            web := [("svc:" ++ svc.serviceName ++ ":" ++ svc.port,
              { handlers := [("/", { proxy := buildDestination svc })] })] }).foldl
          (fun acc2 kv => mapInsert acc2 kv.1 kv.2) []
      else [] := rfl
  rw [h1, if_pos (show isManagedService ("svc:" ++ svc.serviceName) = true from
    goHasPfx_append "svc:" svc.serviceName)]
  simp only [serviceEndpoints, List.map_cons, List.map_nil, List.foldl_cons,
    List.foldl_nil, mapInsert, List.filter_nil, List.nil_append]
  rw [webDestination_statusAfterServe svc]

/-- Counterexample to C5: a desired endpoint whose listen protocol is
`tls-terminated-tcp` is re-added on the second cycle even when the observed
state is exactly what the first cycle's `--tcp` command established (the
status re-parse can only yield `https`, `http` or `tcp`), so the cycle
issues a non-empty command list. -/
theorem c5_idempotence_counterexample :
    getCurrentServices (statusAfterServe tlsTcpSvc) =
      [("svc:db:443",
        { serviceName := "svc:db", port := "443", protocol := "tcp"
          destination := "tcp://localhost:5432" })] ∧
    defaultCycleCmds [tlsTcpSvc] (statusAfterServe tlsTcpSvc) (fun _ => false) =
      [.serveAdd "svc:db" "--tcp" "443" "tcp://localhost:5432"] ∧
    defaultCycleCmds [tlsTcpSvc] (statusAfterServe tlsTcpSvc) (fun _ => false) ≠ [] := by
  refine ⟨by decide, by decide, by decide⟩

/-- C5 (amended): a second reconciliation with identical inputs issues zero
add/update/remove commands for endpoints whose listen protocol is `http`,
`https` or `tcp` — re-parsing the daemon state established by the first
cycle's command returns exactly the desired protocol and destination, so
the skip branch is taken; endpoints with listen protocol
`tls-terminated-tcp` are excluded because the status re-parse (HTTPS flag →
https, HTTP flag → http, neither → tcp) can never produce it. -/
theorem c5_idempotence_amended (svc : ContainerService) (conflict : String → Bool)
    (h : svc.serviceProtocol = "http" ∨ svc.serviceProtocol = "https" ∨
      svc.serviceProtocol = "tcp") :
    getCurrentServices (statusAfterServe svc) =
      [(desiredKey svc,
        { serviceName := "svc:" ++ svc.serviceName
          port := svc.port
          protocol := svc.serviceProtocol
          destination := buildDestination svc })] ∧
    defaultCycleCmds [svc] (statusAfterServe svc) conflict = [] := by
  have hproto : statusProtocol
      { http := svc.serviceProtocol == "http"
        https := svc.serviceProtocol == "https" } = svc.serviceProtocol := by
    rcases h with h | h | h <;> rw [h] <;> rfl
  have hparse : getCurrentServices (statusAfterServe svc) =
      [(desiredKey svc,
        { serviceName := "svc:" ++ svc.serviceName
          port := svc.port
          protocol := svc.serviceProtocol
          destination := buildDestination svc })] := by
    rw [parse_statusAfterServe, hproto]
    rfl
  refine ⟨hparse, ?_⟩
  have hdm : buildDesiredMap [svc] = [(desiredKey svc, svc)] := by
    unfold buildDesiredMap mapInsert
    rfl
  have hlook : mapLookup
      [(desiredKey svc,
        ({ serviceName := "svc:" ++ svc.serviceName
           port := svc.port
           protocol := svc.serviceProtocol
           destination := buildDestination svc } : ServiceEndpoint))]
      (desiredKey svc) =
      some { serviceName := "svc:" ++ svc.serviceName
             port := svc.port
             protocol := svc.serviceProtocol
             destination := buildDestination svc } := by
    unfold mapLookup
    rw [@List.find?_cons_of_pos _
      (fun kv : String × ServiceEndpoint => kv.1 == desiredKey svc) _ _
      (by simp)]
    rfl
  have hadd : computeToAdd [(desiredKey svc, svc)]
      [(desiredKey svc,
        ({ serviceName := "svc:" ++ svc.serviceName
           port := svc.port
           protocol := svc.serviceProtocol
           destination := buildDestination svc } : ServiceEndpoint))] = [] := by
    unfold computeToAdd
    rw [List.filter_cons]
    rw [if_neg ?_]
    · rfl
    · simp only [hlook]
      simp [needsUpdate]
  have hrem : computeToRemove [(desiredKey svc, svc)]
      [(desiredKey svc,
        ({ serviceName := "svc:" ++ svc.serviceName
           port := svc.port
           protocol := svc.serviceProtocol
           destination := buildDestination svc } : ServiceEndpoint))] = [] := by
    unfold computeToRemove
    rw [List.filter_cons]
    rw [if_neg ?_]
    · rfl
    · have : mapLookup [(desiredKey svc, svc)] (desiredKey svc) = some svc := by
        unfold mapLookup
        rw [@List.find?_cons_of_pos _
          (fun kv : String × ContainerService => kv.1 == desiredKey svc) _ _
          (by simp)]
        rfl
      simp [this]
  have hcycle : defaultCycleCmds [svc] (statusAfterServe svc) conflict =
      applyCmds
        (computeToRemove (buildDesiredMap [svc])
          (getCurrentServices (statusAfterServe svc)))
        (computeToAdd (buildDesiredMap [svc])
          (getCurrentServices (statusAfterServe svc)))
        conflict := rfl
  rw [hcycle, hparse, hdm, hadd, hrem]
  rfl

/-- Witness for C5 (amended) at a concrete HTTP endpoint. -/
theorem c5_idempotence_amended_witness :
    defaultCycleCmds [webSvc] (statusAfterServe webSvc) (fun _ => false) = [] :=
  (c5_idempotence_amended webSvc (fun _ => false) (Or.inl rfl)).2

theorem syncServiceDefinition_req_shape (oracle : String → ApiGetResult)
    (putOk : String → Bool) (name : String) (tags : List String) (port : String) :
    ∀ req ∈ (syncServiceDefinition oracle putOk name tags port).1,
      req.method = "GET" ∨
        (req.method = "PUT" ∧ oracle req.service = .notFound) := by
  intro req hreq
  simp only [syncServiceDefinition] at hreq
  cases ho : oracle (if goHasPfx name "svc:" = true then name else "svc:" ++ name) with
  | failed m =>
    rw [ho] at hreq
    simp only [List.mem_cons, List.not_mem_nil, or_false] at hreq
    subst hreq
    left; rfl
  | found t p =>
    rw [ho] at hreq
    simp only [List.mem_cons, List.not_mem_nil, or_false] at hreq
    subst hreq
    left; rfl
  | notFound =>
    rw [ho] at hreq
    cases hp : putOk (if goHasPfx name "svc:" = true then name else "svc:" ++ name) with
    | true =>
      rw [hp] at hreq
      simp only [if_true, List.mem_cons, List.not_mem_nil, or_false] at hreq
      rcases hreq with rfl | rfl
      · left; rfl
      · right; exact ⟨rfl, ho⟩
    | false =>
      rw [hp] at hreq
      rw [if_neg Bool.false_ne_true] at hreq
      simp only [List.mem_cons, List.not_mem_nil, or_false] at hreq
      rcases hreq with rfl | rfl
      · left; rfl
      · right; exact ⟨rfl, ho⟩

/-- C8: the control-plane sync is conservative.  A PUT is sent only for a
service whose GET returned 404; an existing definition produces exactly one
GET and a success (left untouched); every request the sync can build is a
GET or a PUT, never a DELETE; and the cycle's return value is the same for
every control-plane outcome — sync failures are logged, not propagated. -/
theorem c8_control_plane_conservative
    (oracle : String → ApiGetResult) (putOk : String → Bool)
    (order : List (String × List String × String))
    (name : String) (tags : List String) (port : String)
    (ds : List ContainerService) (currentFunnels : List (String × String))
    (addOrder : List (String × ContainerService))
    (addFails removeFails : String → Bool) (apiKey : String) :
    (∀ req ∈ (syncServiceDefinition oracle putOk name tags port).1,
      req.method = "PUT" → oracle req.service = .notFound) ∧
    (∀ req ∈ (syncServiceDefinitions oracle putOk order).1,
      req.method = "GET" ∨ req.method = "PUT") ∧
    (∀ tg pts,
      oracle (if goHasPfx name "svc:" = true then name else "svc:" ++ name) =
        .found tg pts →
      (syncServiceDefinition oracle putOk name tags port).1 =
        [{ method := "GET"
           service := if goHasPfx name "svc:" = true then name
             else "svc:" ++ name }] ∧
      (syncServiceDefinition oracle putOk name tags port).2 = .ok ()) ∧
    (∀ (oracle2 : String → ApiGetResult) (putOk2 : String → Bool),
      reconcileServicesResult ds currentFunnels addOrder addFails removeFails
          apiKey oracle putOk =
        reconcileServicesResult ds currentFunnels addOrder addFails removeFails
          apiKey oracle2 putOk2) := by
  refine ⟨?_, ?_, ?_, fun oracle2 putOk2 => rfl⟩
  · intro req hreq hput
    rcases syncServiceDefinition_req_shape oracle putOk name tags port req hreq with
      hg | ⟨_, hnf⟩
    · rw [hput] at hg
      exact absurd hg (by decide)
    · exact hnf
  · intro req hreq
    simp only [syncServiceDefinitions] at hreq
    obtain ⟨r, hr, hreq2⟩ := List.mem_flatMap.mp hreq
    obtain ⟨kv, _, hrdef⟩ := List.mem_map.mp hr
    subst hrdef
    rcases syncServiceDefinition_req_shape oracle putOk kv.1 kv.2.1 kv.2.2 req hreq2 with
      hg | ⟨hp, _⟩
    · exact Or.inl hg
    · exact Or.inr hp
  · intro tg pts ho
    constructor
    · simp only [syncServiceDefinition]
      rw [ho]
    · simp only [syncServiceDefinition]
      rw [ho]

/-- Witness for C8: with a control plane where every definition already
exists, the sync for `web` issues exactly one GET and reports success. -/
theorem c8_control_plane_conservative_witness :
    (syncServiceDefinition (fun _ => .found ["tag:web"] ["tcp:443"])
        (fun _ => true) "web" [] "443").1 =
      [{ method := "GET", service := "svc:web" }] :=
  ((c8_control_plane_conservative (fun _ => .found ["tag:web"] ["tcp:443"])
    (fun _ => true) [] "web" [] "443" [] [] [] (fun _ => false) (fun _ => false)
    "key").2.2.1 ["tag:web"] ["tcp:443"] (by decide)).1

theorem parseFunnelBlock_http (cctx : ContainerCtx)
    (labels : List (String × String))
    (hfp : label labels "docktail.funnel.protocol" = "http") :
    ∃ e, parseFunnelBlock cctx labels = .error e := by
  by_cases hport : label labels "docktail.funnel.port" = ""
  · refine ⟨"funnel enabled but missing required label: docktail.funnel.port", ?_⟩
    simp [parseFunnelBlock, hport]
  · have hport' : (label labels "docktail.funnel.port" == "") = false := by
      simp [hport]
    simp only [parseFunnelBlock, hfp]
    simp only [hport', Bool.false_eq_true, if_false]
    simp
    split <;> split <;> exact ⟨_, rfl⟩

/-- C10: a container whose funnel protocol label is `http` (with funnel
enabled) fails parsing outright — the final funnel-protocol validation only
accepts `https`, `tcp` and `tls-terminated-tcp` — so the container
contributes zero declarations to the cycle, even though the funnel command
builder itself has a branch that would handle protocol `http` with the
`--https` flag. -/
theorem c10_funnel_http_rejects_container (containerID : String)
    (labels : List (String × String)) (inspect : InspectData)
    (defaultTags : List String)
    (hen : label labels "docktail.service.enable" = "true")
    (hfe : label labels "docktail.funnel.enable" = "true")
    (hfp : label labels "docktail.funnel.protocol" = "http") :
    (∃ e, parseContainer containerID labels inspect defaultTags = .error e) ∧
    containerDeclarations containerID labels inspect defaultTags = [] ∧
    (∀ svc : ContainerService, svc.funnelEnabled = true →
      svc.funnelProtocol = "http" →
      addFunnelCmds svc = .ok [.funnelAdd "--https" svc.funnelFunnelPort
        ("http://" ++ svc.ipAddress ++ ":" ++ svc.funnelTargetPort)]) := by
  have herr : ∃ e, parseContainer containerID labels inspect defaultTags = .error e := by
    unfold parseContainer
    rw [hen]
    rw [if_neg (by simp)]
    by_cases hname : label labels "docktail.service.name" = ""
    · rw [if_pos (by simp [hname])]
      exact ⟨_, rfl⟩
    · rw [if_neg (by simp [hname])]
      by_cases htp : label labels "docktail.service.port" = ""
      · rw [if_pos (by simp [htp])]
        exact ⟨_, rfl⟩
      · rw [if_neg (by simp [htp])]
        split
        · exact ⟨_, rfl⟩
        · simp only [hfe]
          simp only [show (("true" : String) == "true") = true from rfl, if_true]
          split
          · exact ⟨_, rfl⟩
          · rename_i destIP destPort hdest
            obtain ⟨e, he⟩ := parseFunnelBlock_http
              { containerID := containerID
                containerName := inspect.name
                specifiedNetwork := label labels "docktail.service.network"
                inspect := inspect
                tags := parseTags (label labels "docktail.tags") defaultTags
                destIP := destIP
                isHostNetwork := inspect.networkMode == "host"
                isNoNetwork := inspect.networkMode == "none"
                isDirectMode := label labels "docktail.service.direct" != "false" }
              labels hfp
            rw [he]
            exact ⟨e, rfl⟩
  refine ⟨herr, ?_, ?_⟩
  · obtain ⟨e, he⟩ := herr
    unfold containerDeclarations
    rw [he]
  · intro svc hfen hproto
    unfold addFunnelCmds
    rw [hfen, hproto]
    rfl

/-- Witness for C10 at a concrete container: enabled, valid service labels,
funnel enabled with protocol `http` — no declaration survives. -/
theorem c10_funnel_http_rejects_container_witness :
    containerDeclarations "abcdef123456"
      [("docktail.service.enable", "true"), ("docktail.service.name", "web"),
       ("docktail.service.port", "80"), ("docktail.funnel.enable", "true"),
       ("docktail.funnel.port", "80"), ("docktail.funnel.protocol", "http")]
      { name := "web1", networkMode := "bridge"
        networks := [("bridge", "172.17.0.2")] }
      [] = [] :=
  (c10_funnel_http_rejects_container "abcdef123456"
    [("docktail.service.enable", "true"), ("docktail.service.name", "web"),
     ("docktail.service.port", "80"), ("docktail.funnel.enable", "true"),
     ("docktail.funnel.port", "80"), ("docktail.funnel.protocol", "http")]
    { name := "web1", networkMode := "bridge"
      networks := [("bridge", "172.17.0.2")] }
    [] (by decide) (by decide) (by decide)).2.1

theorem funnelScanStep_dupErrors (acc : FunnelScan) (svc : ContainerService) :
    ∃ w, (funnelScanStep acc svc).dupErrors = acc.dupErrors ++ w := by
  unfold funnelScanStep
  by_cases he : svc.funnelEnabled = true
  · rw [if_pos he]
    cases hl : mapLookup acc.portUsage svc.funnelFunnelPort with
    | some owner => exact ⟨[(svc.funnelFunnelPort, owner, svc.containerName)], rfl⟩
    | none => exact ⟨[], (List.append_nil _).symm⟩
  · rw [if_neg he]
    exact ⟨[], (List.append_nil _).symm⟩

theorem foldl_funnelScan_dupErrors (l : List ContainerService) :
    ∀ acc : FunnelScan,
      ∃ w, (l.foldl funnelScanStep acc).dupErrors = acc.dupErrors ++ w := by
  induction l with
  | nil => intro acc; exact ⟨[], (List.append_nil _).symm⟩
  | cons hd tl ih =>
    intro acc
    rw [List.foldl_cons]
    obtain ⟨w1, h1⟩ := funnelScanStep_dupErrors acc hd
    obtain ⟨w2, h2⟩ := ih (funnelScanStep acc hd)
    exact ⟨w1 ++ w2, by rw [h2, h1, List.append_assoc]⟩

theorem funnelScanStep_portPersist (acc : FunnelScan) (svc : ContainerService)
    (p : String) (h : (mapLookup acc.portUsage p).isSome = true) :
    (mapLookup (funnelScanStep acc svc).portUsage p).isSome = true := by
  unfold funnelScanStep
  by_cases he : svc.funnelEnabled = true
  · rw [if_pos he]
    cases hl : mapLookup acc.portUsage svc.funnelFunnelPort with
    | some owner => exact h
    | none =>
      by_cases hp : p = svc.funnelFunnelPort
      · subst hp
        show (mapLookup
            (mapInsert acc.portUsage svc.funnelFunnelPort svc.containerName)
            svc.funnelFunnelPort).isSome = true
        rw [mapLookup_mapInsert_self]
        rfl
      · show (mapLookup
            (mapInsert acc.portUsage svc.funnelFunnelPort svc.containerName)
            p).isSome = true
        rw [mapLookup_mapInsert_ne _ _ hp]
        exact h
  · rw [if_neg he]
    exact h

theorem foldl_funnelScan_portPersist (l : List ContainerService) :
    ∀ (acc : FunnelScan) (p : String),
      (mapLookup acc.portUsage p).isSome = true →
      (mapLookup ((l.foldl funnelScanStep acc)).portUsage p).isSome = true := by
  induction l with
  | nil => intro acc p h; exact h
  | cons hd tl ih =>
    intro acc p h
    rw [List.foldl_cons]
    exact ih _ p (funnelScanStep_portPersist acc hd p h)

theorem funnelScanStep_registers (acc : FunnelScan) (svc : ContainerService)
    (he : svc.funnelEnabled = true) :
    (mapLookup (funnelScanStep acc svc).portUsage svc.funnelFunnelPort).isSome
      = true := by
  unfold funnelScanStep
  rw [if_pos he]
  cases hl : mapLookup acc.portUsage svc.funnelFunnelPort with
  | some owner =>
    show (mapLookup acc.portUsage svc.funnelFunnelPort).isSome = true
    rw [hl]
    rfl
  | none =>
    show (mapLookup
        (mapInsert acc.portUsage svc.funnelFunnelPort svc.containerName)
        svc.funnelFunnelPort).isSome = true
    rw [mapLookup_mapInsert_self]
    rfl

theorem funnelScanStep_dup (acc : FunnelScan) (svc : ContainerService)
    (owner : String) (he : svc.funnelEnabled = true)
    (hl : mapLookup acc.portUsage svc.funnelFunnelPort = some owner) :
    (funnelScanStep acc svc).dupErrors =
      acc.dupErrors ++ [(svc.funnelFunnelPort, owner, svc.containerName)] := by
  unfold funnelScanStep
  rw [if_pos he, hl]

/-- C6: if two funnel declarations in one cycle share a public port, the
funnel reconciliation records a diagnostic for the duplicate (naming the
port and the later declaration's container) and returns failure with an
empty command trace — no funnel add or remove is issued. -/
theorem c6_funnel_port_conflict (pre mid post : List ContainerService)
    (a b : ContainerService) (currentFunnels : List (String × String))
    (ha : a.funnelEnabled = true) (hb : b.funnelEnabled = true)
    (hport : a.funnelFunnelPort = b.funnelFunnelPort) :
    (reconcileFunnelCmds (pre ++ a :: mid ++ b :: post) currentFunnels).failed
      = true ∧
    (reconcileFunnelCmds (pre ++ a :: mid ++ b :: post) currentFunnels).commands
      = [] ∧
    ∃ e ∈ (reconcileFunnelCmds (pre ++ a :: mid ++ b :: post)
        currentFunnels).dupErrors,
      e.1 = b.funnelFunnelPort ∧ e.2.2 = b.containerName := by
  have hscan : funnelScan (pre ++ a :: mid ++ b :: post) =
      post.foldl funnelScanStep
        (funnelScanStep
          (mid.foldl funnelScanStep
            (funnelScanStep
              (pre.foldl funnelScanStep
                { desired := [], portUsage := [], dupErrors := [] }) a))
          b) := by
    unfold funnelScan
    rw [List.foldl_append, List.foldl_cons, List.foldl_append, List.foldl_cons]
  have hreg := funnelScanStep_registers
    (pre.foldl funnelScanStep { desired := [], portUsage := [], dupErrors := [] })
    a ha
  have hpersist := foldl_funnelScan_portPersist mid _ a.funnelFunnelPort hreg
  rw [hport] at hpersist
  obtain ⟨owner, howner⟩ := Option.isSome_iff_exists.mp hpersist
  have hdup := funnelScanStep_dup _ b owner hb howner
  obtain ⟨w, hw⟩ := foldl_funnelScan_dupErrors post
    (funnelScanStep
      (mid.foldl funnelScanStep
        (funnelScanStep
          (pre.foldl funnelScanStep
            { desired := [], portUsage := [], dupErrors := [] }) a))
      b)
  have hmem : (b.funnelFunnelPort, owner, b.containerName) ∈
      (funnelScan (pre ++ a :: mid ++ b :: post)).dupErrors := by
    rw [hscan, hw, hdup]
    refine List.mem_append.mpr (Or.inl ?_)
    exact List.mem_append.mpr (Or.inr (List.mem_singleton.mpr rfl))
  have hlen : (funnelScan (pre ++ a :: mid ++ b :: post)).dupErrors.length > 0 :=
    List.length_pos.mpr (List.ne_nil_of_mem hmem)
  unfold reconcileFunnelCmds
  rw [if_pos hlen]
  exact ⟨rfl, rfl, ⟨(b.funnelFunnelPort, owner, b.containerName), hmem, rfl, rfl⟩⟩

/-- Witness for C6: two concrete containers both claiming public port 443
fail the funnel reconciliation with no commands issued. -/
theorem c6_funnel_port_conflict_witness :
    (reconcileFunnelCmds [funnelSvc443, funnelSvc443b] []).failed = true ∧
    (reconcileFunnelCmds [funnelSvc443, funnelSvc443b] []).commands = [] := by
  have h := c6_funnel_port_conflict [] [] [] funnelSvc443 funnelSvc443b []
    (by decide) (by decide) (by decide)
  exact ⟨h.1, h.2.1⟩

theorem mapKeys_not_mem_of_lookup_none {α : Type} {m : List (String × α)}
    {k : String} (h : mapLookup m k = none) : k ∉ mapKeys m := by
  intro hk
  obtain ⟨⟨k1, v1⟩, hkv, hfst⟩ := List.mem_map.mp hk
  simp only at hfst
  subst hfst
  exact mapLookup_eq_none_iff.mp h v1 hkv

theorem mapInsert_fresh {α : Type} {m : List (String × α)} {k : String} (v : α)
    (h : mapLookup m k = none) : mapInsert m k v = m ++ [(k, v)] := by
  unfold mapInsert
  congr 1
  apply List.filter_eq_self.mpr
  intro kv hkv
  rw [bne_iff_ne]
  intro heq
  obtain ⟨k1, v1⟩ := kv
  simp only at heq
  subst heq
  exact mapLookup_eq_none_iff.mp h v1 hkv

theorem sortedIndices_pairwise (labels : List (String × String)) :
    (sortedIndices labels).Pairwise (· < ·) := by
  unfold sortedIndices
  exact List.Pairwise.sublist (List.filter_sublist _) (List.pairwise_lt_range _)

theorem idxStep_none_eq (cctx : ContainerCtx) (labels : List (String × String))
    (s : IdxState) (idx : Nat) (hres : idxResolve labels idx = none) :
    idxStep cctx labels s idx = s := by
  unfold idxStep
  rw [hres]

theorem idxStep_dup_eq (cctx : ContainerCtx) (labels : List (String × String))
    (s : IdxState) (idx : Nat) (name tp proto sp sproto : String) (prev : Nat)
    (hres : idxResolve labels idx = some (name, tp, proto, sp, sproto))
    (hl : mapLookup s.used (name ++ ":" ++ sp) = some prev) :
    idxStep cctx labels s idx =
      { s with warnings := s.warnings ++ [(idx, prev)] } := by
  unfold idxStep
  rw [hres]
  show (match mapLookup s.used (name ++ ":" ++ sp) with
    | some prevIdx => { s with warnings := s.warnings ++ [(idx, prevIdx)] }
    | none =>
        match resolveDestPort cctx tp with
        | .error _ =>
            { s with used := mapInsert s.used (name ++ ":" ++ sp) idx }
        | .ok (destIP, destPort) =>
            { s with
              used := mapInsert s.used (name ++ ":" ++ sp) idx
              out := s.out ++
                [{ containerID := cctx.containerID.take 12
                   containerName := cctx.containerName
                   serviceName := name
                   port := sp
                   targetPort := destPort
                   serviceProtocol := sproto
                   protocol := proto
                   tags := cctx.tags
                   ipAddress := if cctx.isDirectMode && cctx.destIP != ""
                     then cctx.destIP else destIP
                   funnelEnabled := false }] }) =
    { s with warnings := s.warnings ++ [(idx, prev)] }
  rw [hl]

theorem idxStep_fresh_err_eq (cctx : ContainerCtx) (labels : List (String × String))
    (s : IdxState) (idx : Nat) (name tp proto sp sproto e : String)
    (hres : idxResolve labels idx = some (name, tp, proto, sp, sproto))
    (hl : mapLookup s.used (name ++ ":" ++ sp) = none)
    (hd : resolveDestPort cctx tp = .error e) :
    idxStep cctx labels s idx =
      { s with used := mapInsert s.used (name ++ ":" ++ sp) idx } := by
  unfold idxStep
  rw [hres]
  show (match mapLookup s.used (name ++ ":" ++ sp) with
    | some prevIdx => { s with warnings := s.warnings ++ [(idx, prevIdx)] }
    | none =>
        match resolveDestPort cctx tp with
        | .error _ =>
            { s with used := mapInsert s.used (name ++ ":" ++ sp) idx }
        | .ok (destIP, destPort) =>
            { s with
              used := mapInsert s.used (name ++ ":" ++ sp) idx
              out := s.out ++
                [{ containerID := cctx.containerID.take 12
                   containerName := cctx.containerName
                   serviceName := name
                   port := sp
                   targetPort := destPort
                   serviceProtocol := sproto
                   protocol := proto
                   tags := cctx.tags
                   ipAddress := if cctx.isDirectMode && cctx.destIP != ""
                     then cctx.destIP else destIP
                   funnelEnabled := false }] }) =
    { s with used := mapInsert s.used (name ++ ":" ++ sp) idx }
  rw [hl, hd]

theorem idxStep_fresh_ok_eq (cctx : ContainerCtx) (labels : List (String × String))
    (s : IdxState) (idx : Nat) (name tp proto sp sproto destIP destPort : String)
    (hres : idxResolve labels idx = some (name, tp, proto, sp, sproto))
    (hl : mapLookup s.used (name ++ ":" ++ sp) = none)
    (hd : resolveDestPort cctx tp = .ok (destIP, destPort)) :
    idxStep cctx labels s idx =
      { s with
        used := mapInsert s.used (name ++ ":" ++ sp) idx
        out := s.out ++
          [{ containerID := cctx.containerID.take 12
             containerName := cctx.containerName
             serviceName := name
             port := sp
             targetPort := destPort
             serviceProtocol := sproto
             protocol := proto
             tags := cctx.tags
             ipAddress := if cctx.isDirectMode && cctx.destIP != ""
               then cctx.destIP else destIP
             funnelEnabled := false }] } := by
  unfold idxStep
  rw [hres]
  show ((match mapLookup s.used (name ++ ":" ++ sp) with
    | some prevIdx => { s with warnings := s.warnings ++ [(idx, prevIdx)] }
    | none =>
        match resolveDestPort cctx tp with
        | .error _ =>
            { s with used := mapInsert s.used (name ++ ":" ++ sp) idx }
        | .ok (destIP, destPort) =>
            { s with
              used := mapInsert s.used (name ++ ":" ++ sp) idx
              out := s.out ++
                [{ containerID := cctx.containerID.take 12
                   containerName := cctx.containerName
                   serviceName := name
                   port := sp
                   targetPort := destPort
                   serviceProtocol := sproto
                   protocol := proto
                   tags := cctx.tags
                   ipAddress := if cctx.isDirectMode && cctx.destIP != ""
                     then cctx.destIP else destIP
                   funnelEnabled := false }] }) : IdxState) =
    { s with
      used := mapInsert s.used (name ++ ":" ++ sp) idx
      out := s.out ++
        [{ containerID := cctx.containerID.take 12
           containerName := cctx.containerName
           serviceName := name
           port := sp
           targetPort := destPort
           serviceProtocol := sproto
           protocol := proto
           tags := cctx.tags
           ipAddress := if cctx.isDirectMode && cctx.destIP != ""
             then cctx.destIP else destIP
           funnelEnabled := false }] }
  rw [hl, hd]

theorem idxStep_warnings (cctx : ContainerCtx) (labels : List (String × String))
    (s : IdxState) (idx : Nat) :
    ∃ w, (idxStep cctx labels s idx).warnings = s.warnings ++ w := by
  cases hres : idxResolve labels idx with
  | none =>
    rw [idxStep_none_eq cctx labels s idx hres]
    exact ⟨[], (List.append_nil _).symm⟩
  | some tup =>
    obtain ⟨name, tp, proto, sp, sproto⟩ := tup
    cases hl : mapLookup s.used (name ++ ":" ++ sp) with
    | some prev =>
      rw [idxStep_dup_eq cctx labels s idx name tp proto sp sproto prev hres hl]
      exact ⟨[(idx, prev)], rfl⟩
    | none =>
      cases hd : resolveDestPort cctx tp with
      | error e =>
        rw [idxStep_fresh_err_eq cctx labels s idx name tp proto sp sproto e hres hl hd]
        exact ⟨[], (List.append_nil _).symm⟩
      | ok dd =>
        rw [idxStep_fresh_ok_eq cctx labels s idx name tp proto sp sproto dd.1 dd.2
          hres hl (by rw [hd])]
        exact ⟨[], (List.append_nil _).symm⟩

theorem idxFoldl_warnings (cctx : ContainerCtx) (labels : List (String × String))
    (l : List Nat) :
    ∀ s : IdxState,
      ∃ w, (l.foldl (idxStep cctx labels) s).warnings = s.warnings ++ w := by
  induction l with
  | nil => intro s; exact ⟨[], (List.append_nil _).symm⟩
  | cons hd tl ih =>
    intro s
    rw [List.foldl_cons]
    obtain ⟨w1, h1⟩ := idxStep_warnings cctx labels s hd
    obtain ⟨w2, h2⟩ := ih (idxStep cctx labels s hd)
    exact ⟨w1 ++ w2, by rw [h2, h1, List.append_assoc]⟩

theorem idxStep_invariant (cctx : ContainerCtx) (labels : List (String × String))
    (pk : String) (processed : List Nat) (s : IdxState) (idx : Nat)
    (h1 : (mapKeys s.used).Nodup)
    (h2 : (pk :: s.out.map svcKey).Sublist (mapKeys s.used))
    (h3 : ∀ kv ∈ s.used, kv.2 = 0 ∨ kv.2 ∈ processed) :
    (mapKeys (idxStep cctx labels s idx).used).Nodup ∧
    (pk :: (idxStep cctx labels s idx).out.map svcKey).Sublist
      (mapKeys (idxStep cctx labels s idx).used) ∧
    (∀ kv ∈ (idxStep cctx labels s idx).used,
      kv.2 = 0 ∨ kv.2 ∈ processed ++ [idx]) := by
  have hweak : ∀ kv ∈ s.used, kv.2 = 0 ∨ kv.2 ∈ processed ++ [idx] := by
    intro kv hkv
    rcases h3 kv hkv with h | h
    · exact Or.inl h
    · exact Or.inr (List.mem_append_left _ h)
  cases hres : idxResolve labels idx with
  | none =>
    rw [idxStep_none_eq cctx labels s idx hres]
    exact ⟨h1, h2, hweak⟩
  | some tup =>
    obtain ⟨name, tp, proto, sp, sproto⟩ := tup
    cases hl : mapLookup s.used (name ++ ":" ++ sp) with
    | some prev =>
      rw [idxStep_dup_eq cctx labels s idx name tp proto sp sproto prev hres hl]
      exact ⟨h1, h2, hweak⟩
    | none =>
      have hfresh := mapInsert_fresh idx hl
      have hnotmem := mapKeys_not_mem_of_lookup_none hl
      have hkeys : mapKeys (mapInsert s.used (name ++ ":" ++ sp) idx) =
          mapKeys s.used ++ [name ++ ":" ++ sp] := by
        rw [hfresh]
        unfold mapKeys
        rw [List.map_append]
        rfl
      have hnodup' : (mapKeys (mapInsert s.used (name ++ ":" ++ sp) idx)).Nodup := by
        rw [hkeys, List.nodup_append]
        exact ⟨h1, List.nodup_singleton _, by
          intro x hx hxs
          rw [List.mem_singleton] at hxs
          subst hxs
          exact hnotmem hx⟩
      have hused' : ∀ kv ∈ mapInsert s.used (name ++ ":" ++ sp) idx,
          kv.2 = 0 ∨ kv.2 ∈ processed ++ [idx] := by
        intro kv hkv
        rw [hfresh, List.mem_append] at hkv
        rcases hkv with hkv | hkv
        · exact hweak kv hkv
        · rw [List.mem_singleton] at hkv
          subst hkv
          exact Or.inr (List.mem_append_right _ (List.mem_singleton.mpr rfl))
      cases hd : resolveDestPort cctx tp with
      | error e =>
        rw [idxStep_fresh_err_eq cctx labels s idx name tp proto sp sproto e hres hl hd]
        refine ⟨hnodup', ?_, hused'⟩
        rw [hkeys]
        exact h2.trans (List.sublist_append_left _ _)
      | ok dd =>
        obtain ⟨destIP, destPort⟩ := dd
        rw [idxStep_fresh_ok_eq cctx labels s idx name tp proto sp sproto
          destIP destPort hres hl hd]
        refine ⟨hnodup', ?_, hused'⟩
        rw [hkeys]
        simp only [List.map_append, List.map_cons, List.map_nil]
        rw [show svcKey
            { containerID := cctx.containerID.take 12
              containerName := cctx.containerName
              serviceName := name
              port := sp
              targetPort := destPort
              serviceProtocol := sproto
              protocol := proto
              tags := cctx.tags
              ipAddress := if cctx.isDirectMode && cctx.destIP != ""
                then cctx.destIP else destIP
              funnelEnabled := false } = name ++ ":" ++ sp from rfl]
        rw [show (pk :: (s.out.map svcKey ++ [name ++ ":" ++ sp])) =
            (pk :: s.out.map svcKey) ++ [name ++ ":" ++ sp] from List.cons_append _ _ _]
        exact h2.append (List.Sublist.refl _)

theorem idxFoldl_invariant (cctx : ContainerCtx) (labels : List (String × String))
    (pk : String) (l : List Nat) :
    ∀ (processed : List Nat) (s : IdxState),
      (mapKeys s.used).Nodup →
      (pk :: s.out.map svcKey).Sublist (mapKeys s.used) →
      (∀ kv ∈ s.used, kv.2 = 0 ∨ kv.2 ∈ processed) →
      (mapKeys (l.foldl (idxStep cctx labels) s).used).Nodup ∧
      (pk :: (l.foldl (idxStep cctx labels) s).out.map svcKey).Sublist
        (mapKeys (l.foldl (idxStep cctx labels) s).used) ∧
      (∀ kv ∈ (l.foldl (idxStep cctx labels) s).used,
        kv.2 = 0 ∨ kv.2 ∈ processed ++ l) := by
  induction l with
  | nil =>
    intro processed s h1 h2 h3
    refine ⟨h1, h2, ?_⟩
    intro kv hkv
    rcases h3 kv hkv with h | h
    · exact Or.inl h
    · exact Or.inr (List.mem_append_left _ h)
  | cons hd tl ih =>
    intro processed s h1 h2 h3
    rw [List.foldl_cons]
    obtain ⟨g1, g2, g3⟩ := idxStep_invariant cctx labels pk processed s hd h1 h2 h3
    obtain ⟨f1, f2, f3⟩ := ih (processed ++ [hd]) _ g1 g2 g3
    refine ⟨f1, f2, ?_⟩
    intro kv hkv
    rcases f3 kv hkv with h | h
    · exact Or.inl h
    · rw [List.append_assoc] at h
      exact Or.inr h

/-- C9: within one container, `(service name, listen port)` uniquely
identifies a declaration: the primary pair together with the pairs of all
emitted indexed declarations is duplicate-free; and an indexed entry
(processed in ascending index order) whose resolved pair is already claimed
by the primary (marker 0) or an earlier index is dropped at its step —
state unchanged except for a warning naming the conflicting earlier
index — and that warning survives to the final state. -/
theorem c9_dedup_by_name_and_port (cctx : ContainerCtx)
    (labels : List (String × String)) (primaryName primaryPort : String) :
    ((primaryName ++ ":" ++ primaryPort) ::
      (parseIndexedPorts cctx labels primaryName primaryPort).out.map svcKey).Nodup ∧
    (∀ (pre post : List Nat) (idx : Nat)
      (name tp proto sp sproto : String) (prev : Nat),
      sortedIndices labels = pre ++ idx :: post →
      idxResolve labels idx = some (name, tp, proto, sp, sproto) →
      mapLookup (pre.foldl (idxStep cctx labels)
        { used := [(primaryName ++ ":" ++ primaryPort, 0)]
          out := [], warnings := [] }).used (name ++ ":" ++ sp) = some prev →
      (idxStep cctx labels
        (pre.foldl (idxStep cctx labels)
          { used := [(primaryName ++ ":" ++ primaryPort, 0)]
            out := [], warnings := [] }) idx =
        { pre.foldl (idxStep cctx labels)
            { used := [(primaryName ++ ":" ++ primaryPort, 0)]
              out := [], warnings := [] } with
          warnings := (pre.foldl (idxStep cctx labels)
            { used := [(primaryName ++ ":" ++ primaryPort, 0)]
              out := [], warnings := [] }).warnings ++ [(idx, prev)] }) ∧
      (idx, prev) ∈ (parseIndexedPorts cctx labels primaryName primaryPort).warnings ∧
      (prev = 0 ∨ prev < idx)) := by
  constructor
  · have hinit1 : (mapKeys
        ([(primaryName ++ ":" ++ primaryPort, 0)] : List (String × Nat))).Nodup := by
      simp [mapKeys]
    have hinit2 : ((primaryName ++ ":" ++ primaryPort) ::
        (([] : List ContainerService).map svcKey)).Sublist
        (mapKeys ([(primaryName ++ ":" ++ primaryPort, 0)] : List (String × Nat))) := by
      simp [mapKeys]
    have hinit3 : ∀ kv ∈ ([(primaryName ++ ":" ++ primaryPort, 0)] : List (String × Nat)),
        kv.2 = 0 ∨ kv.2 ∈ ([] : List Nat) := by
      intro kv hkv
      rw [List.mem_singleton] at hkv
      subst hkv
      exact Or.inl rfl
    obtain ⟨g1, g2, _⟩ := idxFoldl_invariant cctx labels
      (primaryName ++ ":" ++ primaryPort) (sortedIndices labels) []
      { used := [(primaryName ++ ":" ++ primaryPort, 0)], out := [], warnings := [] }
      hinit1 hinit2 hinit3
    exact g2.nodup g1
  · intro pre post idx name tp proto sp sproto prev hdec hres hlook
    have hstep : idxStep cctx labels
        (pre.foldl (idxStep cctx labels)
          { used := [(primaryName ++ ":" ++ primaryPort, 0)]
            out := [], warnings := [] }) idx =
        { pre.foldl (idxStep cctx labels)
            { used := [(primaryName ++ ":" ++ primaryPort, 0)]
              out := [], warnings := [] } with
          warnings := (pre.foldl (idxStep cctx labels)
            { used := [(primaryName ++ ":" ++ primaryPort, 0)]
              out := [], warnings := [] }).warnings ++ [(idx, prev)] } :=
      idxStep_dup_eq cctx labels _ idx name tp proto sp sproto prev hres hlook
    refine ⟨hstep, ?_, ?_⟩
    · have hfold : parseIndexedPorts cctx labels primaryName primaryPort =
          post.foldl (idxStep cctx labels)
            (idxStep cctx labels
              (pre.foldl (idxStep cctx labels)
                { used := [(primaryName ++ ":" ++ primaryPort, 0)]
                  out := [], warnings := [] }) idx) := by
        unfold parseIndexedPorts
        rw [hdec, List.foldl_append, List.foldl_cons]
      obtain ⟨w, hw⟩ := idxFoldl_warnings cctx labels post
        (idxStep cctx labels
          (pre.foldl (idxStep cctx labels)
            { used := [(primaryName ++ ":" ++ primaryPort, 0)]
              out := [], warnings := [] }) idx)
      rw [hfold, hw, hstep]
      simp only [List.append_assoc]
      refine List.mem_append.mpr (Or.inr ?_)
      exact List.mem_append.mpr (Or.inl (List.mem_singleton.mpr rfl))
    · have hinit3 : ∀ kv ∈ ([(primaryName ++ ":" ++ primaryPort, 0)] : List (String × Nat)),
          kv.2 = 0 ∨ kv.2 ∈ ([] : List Nat) := by
        intro kv hkv
        rw [List.mem_singleton] at hkv
        subst hkv
        exact Or.inl rfl
      obtain ⟨_, _, h3⟩ := idxFoldl_invariant cctx labels
        (primaryName ++ ":" ++ primaryPort) pre []
        { used := [(primaryName ++ ":" ++ primaryPort, 0)], out := [], warnings := [] }
        (by simp [mapKeys]) (by simp [mapKeys]) hinit3
      have hmem := mapLookup_mem hlook
      rcases h3 _ hmem with h | h
      · exact Or.inl h
      · rw [List.nil_append] at h
        right
        have hpw := sortedIndices_pairwise labels
        rw [hdec, List.pairwise_append] at hpw
        exact hpw.2.2 prev h idx (List.mem_cons_self _ _)

/-- Witness for C9: in `dupIdxLabels`, index 1 resolves to the primary's
`(web, 80)` pair and is dropped with a warning naming index 0 (the
primary). -/
theorem c9_dedup_by_name_and_port_witness :
    (1, 0) ∈ (parseIndexedPorts dupIdxCtx dupIdxLabels "web" "80").warnings := by
  have h := (c9_dedup_by_name_and_port dupIdxCtx dupIdxLabels "web" "80").2
    [] [2] 1 "web" "3000" "http" "80" "http" 0
    (by decide) (by decide) (by decide)
  exact h.2.1

end Docktail
